import Mathlib

/-!
Verification development for the hitony voice-device firmware core.

This file gives a shallow embedding, in Lean, of the parts of the firmware
that the specification's claims are about:

* the fixed-size bitmap pool allocator and the size-indexed release helper
  (`init_memory_pools`, `pool_alloc`, `pool_free`, `pool_free_by_size`);
* the lock-free SPSC PCM ring buffer (`ringbuffer_write`, `ringbuffer_read`,
  `ringbuffer_data_available`, `ringbuffer_reset`);
* the control worker's session state machine (`fsm_handle_event`) and the
  state-dependent fragments of its main loop (wake forwarding, drain-wait,
  reconnect backoff);
* the transport-side binary batch handler (`handle_ws_binary`) and the
  pool selection done by the websocket event callback;
* the audio pipeline worker's command dispatch and VAD silence logic.

Modelling conventions:
* machine integers are embedded as `Nat` with explicit `% 2^32` where the
  source's 32-bit wrap-around matters (pointer differences);
* the FreeRTOS tick is modelled at 1 kHz, so one tick is one millisecond and
  `pdMS_TO_TICKS` is the identity;
* queues are lists together with their source capacity; a 0-timeout
  `xQueueSend` on a full queue drops the element, as in the source;
* calls whose only effect is logging, LED or display output are omitted;
  commands to the audio worker and messages to the server are recorded as
  explicit action values so theorems can talk about what was sent;
* `esp_websocket_client_is_connected` and the `g_ws_connected` flag are
  modelled by one `ws_connected` field (both track the same connect and
  disconnect events of the single client).
-/

-- ===========================================================================
-- Pool allocator (src/main/ota_update.h, task_manager.h)
-- ===========================================================================

/-- The five pool size classes of `pool_type_t` (task_manager.h). -/
inductive pool_type_t where
  | POOL_S_64
  | POOL_S_128
  | POOL_S_256
  | POOL_L_2K
  | POOL_L_4K
deriving DecidableEq, Repr

/-- One `memory_pool_t`: backing region base address, block geometry, the
32-bit free bitmap, and the two debug counters `pool_alloc_count[type]` and
`pool_free_count[type]` that the source keeps next to the pool. -/
structure memory_pool_t where
  memory : Nat
  block_size : Nat
  block_count : Nat
  free_bitmap : Nat
  alloc_count : Nat
  free_count : Nat
deriving DecidableEq, Repr

/-- 2^32: the modulus of the firmware's 32-bit pointer arithmetic. -/
def UINT32_LIMIT : Nat := 4294967296

/-- 0xFFFFFFFF, the mask used when clearing a bitmap bit (`~(1U << i)`). -/
def UINT32_MASK : Nat := 4294967295

/-- Count-trailing-zeros with explicit fuel; `builtin_ctz` instantiates the
fuel at 32, matching `__builtin_ctz` on a nonzero `uint32_t`. -/
def ctz_aux : Nat → Nat → Nat
  | 0, _ => 0
  | fuel + 1, b => if b % 2 = 1 then 0 else ctz_aux fuel (b / 2) + 1

/-- `__builtin_ctz` on a 32-bit bitmap. -/
def builtin_ctz (b : Nat) : Nat := ctz_aux 32 b

/-- `pool_alloc` on one pool: exhausted bitmap gives `none`; otherwise the
lowest set bit is claimed, the alloc counter bumped, and the block address
`memory + block_idx * block_size` returned. -/
def pool_alloc (p : memory_pool_t) : Option Nat × memory_pool_t :=
  if p.free_bitmap = 0 then (none, p)
  else
    let block_idx := builtin_ctz p.free_bitmap
    (some (p.memory + block_idx * p.block_size),
     { p with free_bitmap := p.free_bitmap &&& (UINT32_MASK ^^^ (1 <<< block_idx)),
              alloc_count := p.alloc_count + 1 })

/-- `pool_free` on one pool.  The source computes
`offset = (uint8_t*)ptr - (uint8_t*)pool->memory` (a 32-bit `ptrdiff_t`) and
divides by the `uint32_t` block size, so the quotient is taken on the
offset reduced mod 2^32; the block is marked free and the release counter
bumped only when the resulting index is below `block_count`.  A null
pointer is ignored, as in the source. -/
def pool_free (p : memory_pool_t) (ptr : Nat) : memory_pool_t :=
  if ptr = 0 then p
  else
    let offset := (ptr + UINT32_LIMIT - p.memory) % UINT32_LIMIT
    let block_idx := offset / p.block_size
    if block_idx < p.block_count then
      { p with free_bitmap := p.free_bitmap ||| (1 <<< block_idx),
               free_count := p.free_count + 1 }
    else p

/-- The global pool table `g_memory_pools`, indexed by class. -/
abbrev pools_t := pool_type_t → memory_pool_t

/-- `pool_alloc(type)` on the global table. -/
def pools_alloc (ps : pools_t) (t : pool_type_t) : Option Nat × pools_t :=
  let r := pool_alloc (ps t)
  (r.1, Function.update ps t r.2)

/-- `pool_free(type, ptr)` on the global table. -/
def pools_free (ps : pools_t) (t : pool_type_t) (ptr : Nat) : pools_t :=
  Function.update ps t (pool_free (ps t) ptr)

/-- `pool_free_by_size(ptr, len)` (ota_update.h): picks the class from the
payload length with thresholds 64 / 128 / 256 / 2048, then frees there. -/
def pool_free_by_size (ps : pools_t) (ptr : Nat) (len : Nat) : pools_t :=
  if ptr = 0 then ps
  else
    pools_free ps
      (if len ≤ 64 then pool_type_t.POOL_S_64
       else if len ≤ 128 then pool_type_t.POOL_S_128
       else if len ≤ 256 then pool_type_t.POOL_S_256
       else if len ≤ 2048 then pool_type_t.POOL_L_2K
       else pool_type_t.POOL_L_4K) ptr

/-- The class the websocket event callback selects for a payload of `len`
bytes (both for plain frames and for reassembly buffers): 256-byte class up
to 256, 2 KB class up to 2048, else the 4 KB class. -/
def ws_handler_pool_type (len : Nat) : pool_type_t :=
  if len ≤ 256 then pool_type_t.POOL_S_256
  else if len ≤ 2048 then pool_type_t.POOL_L_2K
  else pool_type_t.POOL_L_4K

/-- The `pool_configs` table of `init_memory_pools`: block size and block
count per class. -/
def init_pool_config (t : pool_type_t) : Nat × Nat :=
  match t with
  | pool_type_t.POOL_S_64 => (64, 32)
  | pool_type_t.POOL_S_128 => (128, 32)
  | pool_type_t.POOL_S_256 => (256, 32)
  | pool_type_t.POOL_L_2K => (2048, 16)
  | pool_type_t.POOL_L_4K => (4096, 8)

/-- The initial bitmap of a pool of `count` blocks: all blocks free.  The
source special-cases `count = 32` to avoid the undefined `1U << 32`. -/
def init_bitmap (count : Nat) : Nat :=
  if count = 32 then UINT32_MASK else (1 <<< count) - 1

/-- `init_memory_pools`, parametrised by the (heap-assigned) base address of
each class's backing region. -/
def init_memory_pools (base : pool_type_t → Nat) : pools_t :=
  fun t =>
    { memory := base t
      block_size := (init_pool_config t).1
      block_count := (init_pool_config t).2
      free_bitmap := init_bitmap (init_pool_config t).2
      alloc_count := 0
      free_count := 0 }

/-- Facts every reachable pool table satisfies: geometry as configured by
`init_memory_pools`, bitmap confined to the configured blocks, and a
nonzero heap base. -/
def pools_wf (ps : pools_t) : Prop :=
  ∀ t, (ps t).block_size = (init_pool_config t).1
    ∧ (ps t).block_count = (init_pool_config t).2
    ∧ (ps t).free_bitmap < 2 ^ (ps t).block_count
    ∧ 0 < (ps t).memory

/-- Concrete disjoint base addresses for the five pool regions, standing in
for the five `heap_caps_malloc` results of `init_memory_pools`. -/
def pool_base0 : pool_type_t → Nat
  | pool_type_t.POOL_S_64 => 1000000
  | pool_type_t.POOL_S_128 => 1100000
  | pool_type_t.POOL_S_256 => 1200000
  | pool_type_t.POOL_L_2K => 1300000
  | pool_type_t.POOL_L_4K => 1400000

-- ===========================================================================
-- SPSC PCM ring buffer (src/main/ota_update.h, task_manager.h)
-- ===========================================================================

/-- `pcm_ringbuffer_t`: a fixed-capacity int16 ring with a write cursor and
a read cursor.  Samples are embedded as `Int`; the buffer is a total map
from physical index to sample (only indices below `capacity` are used). -/
structure pcm_ringbuffer_t where
  capacity : Nat
  buffer : Nat → Int
  write_pos : Nat
  read_pos : Nat

/-- Writes the elements of `xs` at consecutive physical indices starting at
`start` (one `memcpy` of the source). -/
def store_list (buf : Nat → Int) (start : Nat) (xs : List Int) : Nat → Int :=
  fun i => if start ≤ i ∧ i < start + xs.length then xs.getD (i - start) 0 else buf i

/-- `ringbuffer_write`: space is `(read_pos - write_pos - 1 + capacity) %
capacity` (one slot reserved), the stored count is the minimum of the
request and the space, and the copy is split in two at the wrap point
exactly as the source's two memcpys.  Returns the new ring and the count
actually stored; never blocks. -/
def ringbuffer_write (rb : pcm_ringbuffer_t) (data : List Int) : pcm_ringbuffer_t × Nat :=
  if data.length = 0 then (rb, 0)
  else
    let read_pos := rb.read_pos
    let write_pos := rb.write_pos
    let available_space := (read_pos + rb.capacity - (write_pos + 1)) % rb.capacity
    let to_write := if data.length < available_space then data.length else available_space
    if to_write = 0 then (rb, 0)
    else
      let part1 := rb.capacity - write_pos
      let buf2 :=
        if to_write ≤ part1 then
          store_list rb.buffer write_pos (data.take to_write)
        else
          store_list (store_list rb.buffer write_pos (data.take part1)) 0
            ((data.drop part1).take (to_write - part1))
      ({ rb with buffer := buf2, write_pos := (write_pos + to_write) % rb.capacity }, to_write)

/-- `ringbuffer_read`: the readable count is `(write_pos - read_pos +
capacity) % capacity`, the returned list is the minimum of the request and
that count, copied in two parts at the wrap point as in the source. -/
def ringbuffer_read (rb : pcm_ringbuffer_t) (samples : Nat) : pcm_ringbuffer_t × List Int :=
  if samples = 0 then (rb, [])
  else
    let write_pos := rb.write_pos
    let read_pos := rb.read_pos
    let available := (write_pos + rb.capacity - read_pos) % rb.capacity
    let to_read := if samples < available then samples else available
    if to_read = 0 then (rb, [])
    else
      let part1 := rb.capacity - read_pos
      let out :=
        if to_read ≤ part1 then
          (List.range to_read).map (fun j => rb.buffer (read_pos + j))
        else
          (List.range part1).map (fun j => rb.buffer (read_pos + j)) ++
          (List.range (to_read - part1)).map (fun j => rb.buffer j)
      ({ rb with read_pos := (read_pos + to_read) % rb.capacity }, out)

/-- `ringbuffer_data_available`. -/
def ringbuffer_data_available (rb : pcm_ringbuffer_t) : Nat :=
  (rb.write_pos + rb.capacity - rb.read_pos) % rb.capacity

/-- `ringbuffer_reset`: both cursors to zero. -/
def ringbuffer_reset (rb : pcm_ringbuffer_t) : pcm_ringbuffer_t :=
  { rb with write_pos := 0, read_pos := 0 }

/-- Occupancy of the ring, as the source's read side computes it. -/
def ringbuffer_occupancy (rb : pcm_ringbuffer_t) : Nat :=
  (rb.write_pos + rb.capacity - rb.read_pos) % rb.capacity

/-- Free space of the ring, as the source's write side computes it
(`(read_pos - write_pos - 1 + capacity) % capacity`; the `size_t`
computation never actually wraps because both cursors are below the
capacity, so the `Nat` form is exact). -/
def ringbuffer_free_space (rb : pcm_ringbuffer_t) : Nat :=
  (rb.read_pos + rb.capacity - (rb.write_pos + 1)) % rb.capacity

/-- The cursor invariant `ringbuffer_init` establishes and every operation
preserves. -/
def ringbuffer_valid (rb : pcm_ringbuffer_t) : Prop :=
  0 < rb.capacity ∧ rb.write_pos < rb.capacity ∧ rb.read_pos < rb.capacity

/-- The logical FIFO content of the ring: the occupied samples in read
order, starting at the read cursor. -/
def ringbuffer_contents (rb : pcm_ringbuffer_t) : List Int :=
  (List.range (ringbuffer_occupancy rb)).map
    (fun j => rb.buffer ((rb.read_pos + j) % rb.capacity))

-- ===========================================================================
-- Control worker data model (src/unnamed/part_002, task_manager.h)
-- ===========================================================================

/-- `fsm_state_t`: the session states owned by the control worker. -/
inductive fsm_state_t where
  | FSM_STATE_IDLE
  | FSM_STATE_RECORDING
  | FSM_STATE_SPEAKING
  | FSM_STATE_MUSIC
  | FSM_STATE_ERROR
deriving DecidableEq, Repr

/-- `fsm_event_type_t` (task_manager.h). -/
inductive fsm_event_type_t where
  | FSM_EVENT_WAKE_DETECTED
  | FSM_EVENT_RECORDING_START
  | FSM_EVENT_RECORDING_END
  | FSM_EVENT_TTS_START
  | FSM_EVENT_TTS_END
  | FSM_EVENT_TTS_ABORT
  | FSM_EVENT_WS_CONNECTED
  | FSM_EVENT_WS_DISCONNECTED
  | FSM_EVENT_ERROR
deriving DecidableEq, Repr

/-- `audio_cmd_t`: commands from the control worker to the pipeline worker. -/
inductive audio_cmd_t where
  | AUDIO_CMD_START_RECORDING
  | AUDIO_CMD_STOP_RECORDING
  | AUDIO_CMD_START_PLAYBACK
  | AUDIO_CMD_STOP_PLAYBACK
deriving DecidableEq, Repr

/-- Values of the `state` field of outbound `listen` messages. -/
inductive listen_state_t where
  | detect
  | start
  | stop
deriving DecidableEq, Repr

/-- Values of the optional `mode` field of outbound `listen` messages. -/
inductive listen_mode_t where
  | auto
  | manualMode
deriving DecidableEq, Repr

/-- Reasons carried by outbound `abort` messages. -/
inductive abort_reason_t where
  | wake_word_detected
  | speaking_timeout
deriving DecidableEq, Repr

/-- Actions of outbound `music_ctrl` messages. -/
inductive music_action_t where
  | pause
  | resume
deriving DecidableEq, Repr

/-- Outbound JSON control messages built by `ws_send_hello`,
`ws_send_listen`, `ws_send_abort`, `ws_send_type` and the literal
`music_ctrl` payloads.  `hasText` records whether the optional wake-phrase
`text` field is present. -/
inductive out_msg_t where
  | hello_msg
  | listen (s : listen_state_t) (mode : Option listen_mode_t) (hasText : Bool)
  | abort_msg (reason : Option abort_reason_t)
  | music_ctrl (a : music_action_t)
  | audio_start
deriving DecidableEq, Repr

/-- Observable effects of the control worker: a server message that
`ws_send_json` delivered, one it dropped because the client was not
connected, a command pushed to the audio worker, and the
`ringbuffer_reset(&g_pcm_ringbuffer)` call made on entering Recording. -/
inductive ctrl_action_t where
  | send_msg (m : out_msg_t)
  | send_drop (m : out_msg_t)
  | audio_cmd (c : audio_cmd_t)
  | reset_pcm_ring
deriving DecidableEq, Repr

/-- `ws_send_json` and its wrappers: the message goes out only when the
websocket client is connected; otherwise it is dropped with a warning.  The
returned action records which happened; the source's boolean result equals
the connected flag. -/
def ws_send_action (connected : Bool) (m : out_msg_t) : ctrl_action_t :=
  if connected then ctrl_action_t.send_msg m else ctrl_action_t.send_drop m

/-- One decoded downlink packet in flight: the two pool blocks of
`opus_packet_msg_t` (struct from the 64-byte class, data from a size-class)
and the payload length. -/
structure opus_packet_msg_t where
  msg_ptr : Nat
  data_ptr : Nat
  len : Nat
deriving DecidableEq, Repr

/-- The control worker's globals (src/unnamed/part_002, file scope):
session state, connection and handshake flags, the drain-wait and backoff
counters, the per-session TTS counters, and the two queues it owns views
of.  `last_reconnect_tick` is the function-static of the Error branch. -/
structure ctrl_state_t where
  state : fsm_state_t
  ws_connected : Bool
  hello_acked : Bool
  audio_start_sent : Bool
  tts_end_received : Bool
  speaking_start_time : Nat
  thinking_start_time : Nat
  recording_start_time : Nat
  drain_wait_count : Nat
  reconnect_attempts : Nat
  last_reconnect_tick : Nat
  auto_listen_enabled : Bool
  music_was_playing : Bool
  tts_rx_count : Nat
  tts_drop_count : Nat
  playback_queue : List opus_packet_msg_t
  fsm_queue : List fsm_event_type_t
deriving DecidableEq, Repr

/-- A 0-timeout `xQueueSend`: appended when below capacity, dropped when
full. -/
def queue_push_bounded (q : List α) (x : α) (cap : Nat) : List α :=
  if q.length < cap then q ++ [x] else q

-- ===========================================================================
-- fsm_handle_event (src/unnamed/part_002)
-- ===========================================================================

/-- `fsm_handle_event`: the session state machine switch, faithful to the
source branch by branch.  `now` is `xTaskGetTickCount()`.  LED and display
calls are omitted; server sends and audio commands are returned, in program
order, as actions; `flush_playback_queue` empties the playback queue in the
state. -/
def fsm_handle_event (st : ctrl_state_t) (ev : fsm_event_type_t) (now : Nat) :
    ctrl_state_t × List ctrl_action_t :=
  match st.state with
  | fsm_state_t.FSM_STATE_IDLE =>
    match ev with
    | fsm_event_type_t.FSM_EVENT_WAKE_DETECTED =>
      ({ st with state := fsm_state_t.FSM_STATE_RECORDING
                 thinking_start_time := 0
                 recording_start_time := now
                 audio_start_sent := st.ws_connected },
       [ctrl_action_t.reset_pcm_ring,
        ws_send_action st.ws_connected (out_msg_t.listen listen_state_t.detect none true),
        ws_send_action st.ws_connected
          (out_msg_t.listen listen_state_t.start (some listen_mode_t.auto) false),
        ctrl_action_t.audio_cmd audio_cmd_t.AUDIO_CMD_START_RECORDING])
    | fsm_event_type_t.FSM_EVENT_TTS_START =>
      ({ st with state := fsm_state_t.FSM_STATE_SPEAKING
                 speaking_start_time := now
                 thinking_start_time := 0 },
       [ctrl_action_t.audio_cmd audio_cmd_t.AUDIO_CMD_START_PLAYBACK])
    | fsm_event_type_t.FSM_EVENT_WS_CONNECTED => (st, [])
    | fsm_event_type_t.FSM_EVENT_WS_DISCONNECTED =>
      ({ st with state := fsm_state_t.FSM_STATE_ERROR }, [])
    | _ => (st, [])
  | fsm_state_t.FSM_STATE_RECORDING =>
    match ev with
    | fsm_event_type_t.FSM_EVENT_RECORDING_END =>
      ({ st with state := fsm_state_t.FSM_STATE_IDLE
                 recording_start_time := 0
                 thinking_start_time := now
                 audio_start_sent := false },
       (if ¬ st.audio_start_sent ∧ st.ws_connected then
          [ws_send_action st.ws_connected
            (out_msg_t.listen listen_state_t.start (some listen_mode_t.auto) false)]
        else []) ++
       [ws_send_action st.ws_connected (out_msg_t.listen listen_state_t.stop none false),
        ctrl_action_t.audio_cmd audio_cmd_t.AUDIO_CMD_STOP_RECORDING])
    | fsm_event_type_t.FSM_EVENT_TTS_START =>
      ({ st with state := fsm_state_t.FSM_STATE_SPEAKING
                 speaking_start_time := now
                 recording_start_time := 0 },
       [ctrl_action_t.audio_cmd audio_cmd_t.AUDIO_CMD_STOP_RECORDING,
        ctrl_action_t.audio_cmd audio_cmd_t.AUDIO_CMD_START_PLAYBACK])
    | fsm_event_type_t.FSM_EVENT_WS_DISCONNECTED =>
      ({ st with state := fsm_state_t.FSM_STATE_ERROR
                 audio_start_sent := false
                 recording_start_time := 0 },
       [ctrl_action_t.audio_cmd audio_cmd_t.AUDIO_CMD_STOP_RECORDING])
    | _ => (st, [])
  | fsm_state_t.FSM_STATE_SPEAKING =>
    match ev with
    | fsm_event_type_t.FSM_EVENT_TTS_END =>
      ({ st with tts_end_received := true }, [])
    | fsm_event_type_t.FSM_EVENT_WAKE_DETECTED =>
      ({ st with tts_end_received := false
                 speaking_start_time := 0
                 drain_wait_count := 0
                 playback_queue := []
                 state := fsm_state_t.FSM_STATE_RECORDING
                 recording_start_time := now
                 audio_start_sent := st.ws_connected },
       [ws_send_action st.ws_connected
          (out_msg_t.abort_msg (some abort_reason_t.wake_word_detected)),
        ctrl_action_t.audio_cmd audio_cmd_t.AUDIO_CMD_STOP_PLAYBACK,
        ctrl_action_t.reset_pcm_ring,
        ws_send_action st.ws_connected (out_msg_t.listen listen_state_t.detect none true),
        ws_send_action st.ws_connected
          (out_msg_t.listen listen_state_t.start (some listen_mode_t.auto) false),
        ctrl_action_t.audio_cmd audio_cmd_t.AUDIO_CMD_START_RECORDING])
    | fsm_event_type_t.FSM_EVENT_WS_DISCONNECTED =>
      ({ st with state := fsm_state_t.FSM_STATE_ERROR
                 tts_end_received := false
                 speaking_start_time := 0
                 playback_queue := [] },
       [ctrl_action_t.audio_cmd audio_cmd_t.AUDIO_CMD_STOP_PLAYBACK])
    | _ => (st, [])
  | fsm_state_t.FSM_STATE_MUSIC =>
    match ev with
    | fsm_event_type_t.FSM_EVENT_TTS_END =>
      ({ st with tts_end_received := true }, [])
    | fsm_event_type_t.FSM_EVENT_WAKE_DETECTED =>
      ({ st with tts_end_received := false
                 drain_wait_count := 0
                 music_was_playing := true
                 playback_queue := []
                 state := fsm_state_t.FSM_STATE_RECORDING
                 recording_start_time := now
                 audio_start_sent := st.ws_connected },
       [ws_send_action st.ws_connected (out_msg_t.music_ctrl music_action_t.pause),
        ctrl_action_t.audio_cmd audio_cmd_t.AUDIO_CMD_STOP_PLAYBACK,
        ctrl_action_t.reset_pcm_ring,
        ws_send_action st.ws_connected (out_msg_t.listen listen_state_t.detect none true),
        ws_send_action st.ws_connected
          (out_msg_t.listen listen_state_t.start (some listen_mode_t.auto) false),
        ctrl_action_t.audio_cmd audio_cmd_t.AUDIO_CMD_START_RECORDING])
    | fsm_event_type_t.FSM_EVENT_WS_DISCONNECTED =>
      ({ st with state := fsm_state_t.FSM_STATE_ERROR
                 tts_end_received := false
                 music_was_playing := false
                 playback_queue := [] },
       [ctrl_action_t.audio_cmd audio_cmd_t.AUDIO_CMD_STOP_PLAYBACK])
    | _ => (st, [])
  | fsm_state_t.FSM_STATE_ERROR =>
    match ev with
    | fsm_event_type_t.FSM_EVENT_WS_CONNECTED =>
      ({ st with state := fsm_state_t.FSM_STATE_IDLE, reconnect_attempts := 0 }, [])
    | _ => (st, [])

-- ===========================================================================
-- Transport handlers running in the control worker (src/unnamed/part_002)
-- ===========================================================================

/-- `handle_ws_connected`: marks the connection up with the handshake not
yet acknowledged, sends `hello`, and queues a `WsConnected` FSM event. -/
def handle_ws_connected (st : ctrl_state_t) : ctrl_state_t × List ctrl_action_t :=
  ({ st with ws_connected := true
             hello_acked := false
             fsm_queue :=
               queue_push_bounded st.fsm_queue fsm_event_type_t.FSM_EVENT_WS_CONNECTED 16 },
   [ws_send_action true out_msg_t.hello_msg])

/-- The `hello` branch of `handle_ws_text`: records the server's reply by
setting `g_hello_acked` (the session id string is not modelled). -/
def handle_ws_text_hello (st : ctrl_state_t) : ctrl_state_t :=
  { st with hello_acked := true }

/-- The pool class `alloc_opus_msg` picks for a payload of `len` bytes
(`none` when the payload exceeds the largest class). -/
def opus_data_pool_type (len : Nat) : Option pool_type_t :=
  if len ≤ 256 then some pool_type_t.POOL_S_256
  else if len ≤ 2048 then some pool_type_t.POOL_L_2K
  else if len ≤ 4096 then some pool_type_t.POOL_L_4K
  else none

/-- `alloc_opus_msg`: struct block from the 64-byte class, data block from
the size class; if the data allocation fails, the struct block is given
back. -/
def alloc_opus_msg (ps : pools_t) (len : Nat) : Option opus_packet_msg_t × pools_t :=
  match opus_data_pool_type len with
  | none => (none, ps)
  | some pt =>
    match pools_alloc ps pool_type_t.POOL_S_64 with
    | (none, ps1) => (none, ps1)
    | (some m, ps1) =>
      match pools_alloc ps1 pt with
      | (none, ps2) => (none, pools_free ps2 pool_type_t.POOL_S_64 m)
      | (some d, ps2) => (some { msg_ptr := m, data_ptr := d, len := len }, ps2)

/-- `free_opus_msg`: data block back to its size class, struct block back
to the 64-byte class. -/
def free_opus_msg (ps : pools_t) (msg : opus_packet_msg_t) : pools_t :=
  let pt := if msg.len ≤ 256 then pool_type_t.POOL_S_256
            else if msg.len ≤ 2048 then pool_type_t.POOL_L_2K
            else pool_type_t.POOL_L_4K
  pools_free (pools_free ps pt msg.data_ptr) pool_type_t.POOL_S_64 msg.msg_ptr

/-- The batch-parsing loop of `handle_ws_binary` over the
`[len_be16][payload]*` format: each entry is length-checked, copied into a
fresh pool message and pushed to the playback queue (capacity 24; on a full
queue the one packet is dropped and parsing continues).  Returns the pools,
the queue, the parsed count and the rx counter.  `fuel` only bounds the
recursion; `data.length + 1` steps always suffice. -/
def tts_batch_loop : Nat → pools_t → List opus_packet_msg_t → List Nat → Nat → Nat → Nat →
    pools_t × List opus_packet_msg_t × Nat × Nat
  | 0, ps, q, _, _, parsed, rx => (ps, q, parsed, rx)
  | fuel + 1, ps, q, data, offset, parsed, rx =>
    if offset + 2 ≤ data.length then
      let pkt_len := data.getD offset 0 * 256 + data.getD (offset + 1) 0
      let offset2 := offset + 2
      if pkt_len = 0 ∨ data.length < offset2 + pkt_len then (ps, q, parsed, rx)
      else
        match alloc_opus_msg ps pkt_len with
        | (none, ps1) => (ps1, q, parsed, rx + 1)
        | (some msg, ps1) =>
          if q.length < 24 then
            tts_batch_loop fuel ps1 (q ++ [msg]) data (offset2 + pkt_len) (parsed + 1) (rx + 1)
          else
            tts_batch_loop fuel (free_opus_msg ps1 msg) q data (offset2 + pkt_len) parsed (rx + 1)
    else (ps, q, parsed, rx)

/-- `handle_ws_binary`: outside Speaking and Music the whole batch is
dropped and counted, leaving everything else untouched; in Speaking the
inactivity timer is refreshed; then the batch is parsed packet by packet.
The boolean result is always `false` (the caller frees the batch buffer). -/
def handle_ws_binary (st : ctrl_state_t) (ps : pools_t) (data : List Nat) (now : Nat) :
    ctrl_state_t × pools_t × Bool :=
  if st.state ≠ fsm_state_t.FSM_STATE_SPEAKING ∧ st.state ≠ fsm_state_t.FSM_STATE_MUSIC then
    ({ st with tts_drop_count := st.tts_drop_count + 1 }, ps, false)
  else
    let st1 := if st.state = fsm_state_t.FSM_STATE_SPEAKING then
                 { st with speaking_start_time := now } else st
    match tts_batch_loop (data.length + 1) ps st1.playback_queue data 0 0 st1.tts_rx_count with
    | (ps2, q2, _, rx2) =>
      ({ st1 with playback_queue := q2, tts_rx_count := rx2 }, ps2, false)

-- ===========================================================================
-- Main control loop fragments (src/unnamed/part_002, main_control_task)
-- ===========================================================================

/-- Forwarding of an acoustic `AUDIO_EVENT_WAKE_DETECTED` bit: dropped in
Speaking and Music (no AEC, speaker echo would self-trigger), otherwise
pushed onto the FSM event queue (capacity 16). -/
def main_wake_forward (st : ctrl_state_t) : ctrl_state_t :=
  if st.state ≠ fsm_state_t.FSM_STATE_SPEAKING ∧ st.state ≠ fsm_state_t.FSM_STATE_MUSIC then
    { st with fsm_queue :=
        queue_push_bounded st.fsm_queue fsm_event_type_t.FSM_EVENT_WAKE_DETECTED 16 }
  else st

/-- Forwarding of an `AUDIO_EVENT_TOUCH_WAKE` bit: pushed onto the FSM
event queue in every session state, with no filter. -/
def main_touch_wake_forward (st : ctrl_state_t) : ctrl_state_t :=
  { st with fsm_queue :=
      queue_push_bounded st.fsm_queue fsm_event_type_t.FSM_EVENT_WAKE_DETECTED 16 }

/-- Forwarding of an `AUDIO_EVENT_VAD_END` bit: becomes a `RecordingEnd`
FSM event only while the session state is Recording. -/
def main_vad_end_forward (st : ctrl_state_t) : ctrl_state_t :=
  if st.state = fsm_state_t.FSM_STATE_RECORDING then
    { st with fsm_queue :=
        queue_push_bounded st.fsm_queue fsm_event_type_t.FSM_EVENT_RECORDING_END 16 }
  else st

/-- The per-iteration body of `case FSM_STATE_SPEAKING` in the main loop:
the 8 s starvation timeout (abort, stop playback, flush, force Idle), then
the drain-wait: with a pending tts-end, an empty playback queue bumps the
consecutive counter and the transition fires at ten, while a non-empty
observation resets the counter to zero.  Diagnostic logging is omitted. -/
def main_speaking_tick (st : ctrl_state_t) (now : Nat) : ctrl_state_t × List ctrl_action_t :=
  if 0 < st.speaking_start_time ∧ 8000 < now - st.speaking_start_time then
    ({ st with tts_end_received := false
               drain_wait_count := 0
               speaking_start_time := 0
               playback_queue := []
               state := fsm_state_t.FSM_STATE_IDLE },
     [ws_send_action st.ws_connected (out_msg_t.abort_msg (some abort_reason_t.speaking_timeout)),
      ctrl_action_t.audio_cmd audio_cmd_t.AUDIO_CMD_STOP_PLAYBACK])
  else if st.tts_end_received then
    if st.playback_queue.length = 0 then
      if 10 ≤ st.drain_wait_count + 1 then
        if st.auto_listen_enabled ∧ st.ws_connected then
          ({ st with tts_end_received := false
                     drain_wait_count := 0
                     speaking_start_time := 0
                     state := fsm_state_t.FSM_STATE_RECORDING
                     recording_start_time := now
                     audio_start_sent := st.ws_connected },
           [ctrl_action_t.audio_cmd audio_cmd_t.AUDIO_CMD_STOP_PLAYBACK,
            ctrl_action_t.reset_pcm_ring,
            ws_send_action st.ws_connected
              (out_msg_t.listen listen_state_t.start (some listen_mode_t.auto) false),
            ctrl_action_t.audio_cmd audio_cmd_t.AUDIO_CMD_START_RECORDING])
        else if st.music_was_playing ∧ st.ws_connected then
          ({ st with tts_end_received := false
                     drain_wait_count := 0
                     speaking_start_time := 0
                     state := fsm_state_t.FSM_STATE_IDLE },
           [ctrl_action_t.audio_cmd audio_cmd_t.AUDIO_CMD_STOP_PLAYBACK,
            ws_send_action st.ws_connected (out_msg_t.music_ctrl music_action_t.resume)])
        else
          ({ st with tts_end_received := false
                     drain_wait_count := 0
                     speaking_start_time := 0
                     state := fsm_state_t.FSM_STATE_IDLE
                     music_was_playing := false },
           [ctrl_action_t.audio_cmd audio_cmd_t.AUDIO_CMD_STOP_PLAYBACK])
      else ({ st with drain_wait_count := st.drain_wait_count + 1 }, [])
    else ({ st with drain_wait_count := 0 }, [])
  else (st, [])

/-- The per-iteration body of `case FSM_STATE_MUSIC` in the main loop: the
same drain-wait as Speaking but with no starvation timeout. -/
def main_music_tick (st : ctrl_state_t) : ctrl_state_t × List ctrl_action_t :=
  if st.tts_end_received then
    if st.playback_queue.length = 0 then
      if 10 ≤ st.drain_wait_count + 1 then
        ({ st with tts_end_received := false
                   drain_wait_count := 0
                   state := fsm_state_t.FSM_STATE_IDLE
                   music_was_playing := false },
         [ctrl_action_t.audio_cmd audio_cmd_t.AUDIO_CMD_STOP_PLAYBACK])
      else ({ st with drain_wait_count := st.drain_wait_count + 1 }, [])
    else ({ st with drain_wait_count := 0 }, [])
  else (st, [])

/-- The backoff delay the Error branch computes from the attempt counter:
`3000u << min(attempts, 3)` milliseconds, clamped to 24000. -/
def reconnect_backoff_ms (attempts : Nat) : Nat :=
  let shift := if attempts < 4 then attempts else 3
  let backoff := 3000 <<< shift
  if 24000 < backoff then 24000 else backoff

/-- The per-iteration body of `case FSM_STATE_ERROR` in the main loop: a
reconnect attempt (`ws_recreate_client`, which tears the client down and
clears the connection and handshake flags) is launched when no attempt was
ever recorded or when more than the backoff has elapsed since the last
one; otherwise only the countdown display is refreshed.  The boolean
result records whether an attempt was launched. -/
def main_error_tick (st : ctrl_state_t) (now : Nat) : ctrl_state_t × Bool :=
  let backoff_ms := reconnect_backoff_ms st.reconnect_attempts
  let elapsed_ms := if 0 < st.last_reconnect_tick then now - st.last_reconnect_tick
                    else backoff_ms
  if st.last_reconnect_tick = 0 ∨ backoff_ms < elapsed_ms then
    ({ st with ws_connected := false
               hello_acked := false
               last_reconnect_tick := now
               reconnect_attempts := st.reconnect_attempts + 1 }, true)
  else (st, false)

-- ===========================================================================
-- Audio pipeline worker (src/main/audio_main_task.cc)
-- ===========================================================================

/-- `audio_mode_t`: the pipeline worker's private sub-mode. -/
inductive audio_mode_t where
  | AUDIO_MODE_IDLE
  | AUDIO_MODE_RECORDING
  | AUDIO_MODE_THINKING
  | AUDIO_MODE_PLAYING
deriving DecidableEq, Repr

/-- The event bits of `g_audio_event_bits` (task_manager.h). -/
inductive audio_event_bit_t where
  | wake_detected
  | vad_start
  | vad_end
  | encode_ready
  | touch_wake
deriving DecidableEq, Repr

/-- Observable effects of the pipeline worker modelled here: an event bit
set for the control worker, an `afe.enable_aec` toggle, and an
`opus_dec.reset()`. -/
inductive audio_action_t where
  | set_event_bit (b : audio_event_bit_t)
  | enable_aec (flag : Bool)
  | decoder_reset
deriving DecidableEq, Repr

/-- The pipeline worker's loop-local variables that the claims touch. -/
structure audio_task_state_t where
  mode : audio_mode_t
  afe_accum_count : Nat
  silence_start_time : Nat
  recording_start_time : Nat
  thinking_start_time : Nat
  vad_trigger_count : Nat
  last_vad_trigger_time : Nat
  tts_play_count : Nat
  tts_underrun_count : Nat
  aec_convergence_until : Nat
deriving DecidableEq, Repr

/-- The three PCM rings owned by the audio path: `g_pcm_ringbuffer` (mic0),
`g_ref_ringbuffer`, `g_mic1_ringbuffer`. -/
structure audio_rings_t where
  pcm : pcm_ringbuffer_t
  ref : pcm_ringbuffer_t
  mic1 : pcm_ringbuffer_t

/-- `afe_cfg.enable_aec` as configured in `audio_main_task` (true). -/
def afe_cfg_enable_aec : Bool := true

/-- The command dispatch of the main loop's section 2 (the `switch (cmd)`
reached in the Idle, Recording and Thinking sub-modes). -/
def audio_cmd_dispatch (st : audio_task_state_t) (rings : audio_rings_t)
    (cmd : audio_cmd_t) (now : Nat) :
    audio_task_state_t × audio_rings_t × List audio_action_t :=
  match cmd with
  | audio_cmd_t.AUDIO_CMD_START_RECORDING =>
    ({ st with mode := audio_mode_t.AUDIO_MODE_RECORDING
               afe_accum_count := 0
               silence_start_time := 0
               recording_start_time := now },
     { rings with pcm := ringbuffer_reset rings.pcm, mic1 := ringbuffer_reset rings.mic1 },
     [])
  | audio_cmd_t.AUDIO_CMD_STOP_RECORDING =>
    ({ st with mode := audio_mode_t.AUDIO_MODE_THINKING
               thinking_start_time := now
               afe_accum_count := 0
               vad_trigger_count := 0 }, rings, [])
  | audio_cmd_t.AUDIO_CMD_START_PLAYBACK =>
    if afe_cfg_enable_aec then
      ({ st with mode := audio_mode_t.AUDIO_MODE_PLAYING
                 tts_play_count := 0
                 tts_underrun_count := 0
                 aec_convergence_until := now + 300 }, rings,
       [audio_action_t.enable_aec true])
    else
      ({ st with mode := audio_mode_t.AUDIO_MODE_PLAYING
                 tts_play_count := 0
                 tts_underrun_count := 0 }, rings, [])
  | audio_cmd_t.AUDIO_CMD_STOP_PLAYBACK =>
    ({ st with mode := audio_mode_t.AUDIO_MODE_IDLE
               last_vad_trigger_time := now
               vad_trigger_count := 0 },
     { rings with ref := ringbuffer_reset rings.ref, mic1 := ringbuffer_reset rings.mic1 },
     if afe_cfg_enable_aec then [audio_action_t.enable_aec false] else [])

/-- The command handling at the top of the loop, taken only while the
sub-mode is Playing.  Commands other than `StopPlayback` and
`StartRecording` are consumed without effect there. -/
def playing_block_cmd (st : audio_task_state_t) (rings : audio_rings_t)
    (cmd : audio_cmd_t) (now : Nat) :
    audio_task_state_t × audio_rings_t × List audio_action_t :=
  match cmd with
  | audio_cmd_t.AUDIO_CMD_STOP_PLAYBACK =>
    ({ st with mode := audio_mode_t.AUDIO_MODE_IDLE
               last_vad_trigger_time := now
               vad_trigger_count := 0
               afe_accum_count := 0 },
     { rings with pcm := ringbuffer_reset rings.pcm
                  ref := ringbuffer_reset rings.ref
                  mic1 := ringbuffer_reset rings.mic1 },
     audio_action_t.decoder_reset ::
       (if afe_cfg_enable_aec then [audio_action_t.enable_aec false] else []))
  | audio_cmd_t.AUDIO_CMD_START_RECORDING =>
    ({ st with mode := audio_mode_t.AUDIO_MODE_RECORDING
               afe_accum_count := 0
               silence_start_time := 0
               recording_start_time := now },
     { rings with pcm := ringbuffer_reset rings.pcm
                  ref := ringbuffer_reset rings.ref
                  mic1 := ringbuffer_reset rings.mic1 },
     audio_action_t.decoder_reset ::
       (if afe_cfg_enable_aec then [audio_action_t.enable_aec false] else []))
  | _ => (st, rings, [])

/-- The VAD silence check of section 4.2, run per fetched front-end block:
in Recording, contiguous silence beyond 800 ms ends the recording; the
source's short-recording branch (duration below 500 ms) goes back to Idle,
the normal branch to Thinking, and both set the `AUDIO_EVENT_VAD_END`
bit.  A voice-active block resets the silence timer. -/
def vad_silence_check (st : audio_task_state_t) (voice_active : Bool) (now : Nat) :
    audio_task_state_t × List audio_action_t :=
  if ¬ voice_active then
    if st.mode = audio_mode_t.AUDIO_MODE_RECORDING then
      if st.silence_start_time = 0 then
        ({ st with silence_start_time := now }, [])
      else if 800 < now - st.silence_start_time then
        if now - st.recording_start_time < 500 then
          ({ st with mode := audio_mode_t.AUDIO_MODE_IDLE
                     last_vad_trigger_time := now
                     vad_trigger_count := 0
                     afe_accum_count := 0
                     silence_start_time := 0 },
           [audio_action_t.set_event_bit audio_event_bit_t.vad_end])
        else
          ({ st with mode := audio_mode_t.AUDIO_MODE_THINKING
                     thinking_start_time := now
                     afe_accum_count := 0
                     silence_start_time := 0 },
           [audio_action_t.set_event_bit audio_event_bit_t.vad_end])
      else (st, [])
    else (st, [])
  else if st.mode = audio_mode_t.AUDIO_MODE_RECORDING then
    ({ st with silence_start_time := 0 }, [])
  else (st, [])

/-- The wake callback registered with the front end
(`afe.on_wake_detected`): returns whether the `AUDIO_EVENT_WAKE_DETECTED`
bit is set, which happens only when the AEC-convergence cooldown deadline
has passed. -/
def afe_wake_callback_fires (now aec_convergence_until : Nat) : Bool :=
  if now < aec_convergence_until then false else true

-- ===========================================================================
-- Concrete fixture states used by the closed theorems below
-- ===========================================================================

/-- A control-worker state freshly connected, before the server's `hello`
reply has arrived: session state Idle, transport up, handshake pending. -/
def ctrl_state_pre_hello : ctrl_state_t :=
  { state := fsm_state_t.FSM_STATE_IDLE
    ws_connected := true
    hello_acked := false
    audio_start_sent := false
    tts_end_received := false
    speaking_start_time := 0
    thinking_start_time := 0
    recording_start_time := 0
    drain_wait_count := 0
    reconnect_attempts := 0
    last_reconnect_tick := 0
    auto_listen_enabled := false
    music_was_playing := false
    tts_rx_count := 0
    tts_drop_count := 0
    playback_queue := []
    fsm_queue := [] }

/-- A Speaking-state control worker in drain-wait: tts-end received, the
playback queue just observed empty for the ninth consecutive time. -/
def ctrl_state_draining : ctrl_state_t :=
  { ctrl_state_pre_hello with
    state := fsm_state_t.FSM_STATE_SPEAKING
    hello_acked := true
    tts_end_received := true
    drain_wait_count := 9
    speaking_start_time := 0 }

/-- An Idle-state control worker receiving a stray audio batch. -/
def ctrl_state_idle_ok : ctrl_state_t :=
  { ctrl_state_pre_hello with hello_acked := true }

/-- A Music-state control worker (used for the touch-wake path). -/
def ctrl_state_music : ctrl_state_t :=
  { ctrl_state_pre_hello with
    state := fsm_state_t.FSM_STATE_MUSIC
    hello_acked := true }

/-- The Error-state control worker at the moment the Error state is first
entered: no reconnect attempt recorded yet. -/
def ctrl_state_error_fresh : ctrl_state_t :=
  { ctrl_state_pre_hello with
    state := fsm_state_t.FSM_STATE_ERROR
    ws_connected := false
    reconnect_attempts := 0
    last_reconnect_tick := 0 }

/-- The Error-state control worker after two failed attempts, the last one
recorded at tick 1. -/
def ctrl_state_error_retry : ctrl_state_t :=
  { ctrl_state_error_fresh with
    reconnect_attempts := 2
    last_reconnect_tick := 1 }

/-- A Recording-state control worker whose `listen(start)` already went
out (as after a normal wake with the transport up). -/
def ctrl_state_recording : ctrl_state_t :=
  { ctrl_state_pre_hello with
    state := fsm_state_t.FSM_STATE_RECORDING
    hello_acked := true
    audio_start_sent := true
    recording_start_time := 1000 }

/-- Pipeline-worker state in the S6 scenario: Recording started at tick
1000 with the voice never active, so the silence timer latched at the
first fetched block, tick 1000. -/
def audio_state_s6 : audio_task_state_t :=
  { mode := audio_mode_t.AUDIO_MODE_RECORDING
    afe_accum_count := 17
    silence_start_time := 1000
    recording_start_time := 1000
    thinking_start_time := 0
    vad_trigger_count := 0
    last_vad_trigger_time := 0
    tts_play_count := 0
    tts_underrun_count := 0
    aec_convergence_until := 0 }

/-- Pipeline-worker state that forces the short-recording branch: the
silence timer predates the recording start (not reachable, since
`StartRecording` zeroes the silence timer, but it isolates the branch). -/
def audio_state_short : audio_task_state_t :=
  { audio_state_s6 with recording_start_time := 1600 }

/-- Pipeline-worker state idling between turns. -/
def audio_state_idle : audio_task_state_t :=
  { audio_state_s6 with
    mode := audio_mode_t.AUDIO_MODE_IDLE
    silence_start_time := 0
    recording_start_time := 0 }

/-- A tiny concrete ring (capacity 4, zero-filled) for evaluations. -/
def ring_fixture : pcm_ringbuffer_t :=
  { capacity := 4
    buffer := fun _ => 0
    write_pos := 0
    read_pos := 0 }

/-- A reference ring holding stale playback samples (cursors advanced). -/
def ring_fixture_stale : pcm_ringbuffer_t :=
  { ring_fixture with capacity := 8, write_pos := 5, read_pos := 2 }

/-- The three audio rings with a stale reference ring. -/
def rings_fixture : audio_rings_t :=
  { pcm := ring_fixture
    ref := ring_fixture_stale
    mic1 := ring_fixture }

/-- The pool table right after `init_memory_pools`, at the concrete base
addresses `pool_base0`. -/
def pools_fixture : pools_t := init_memory_pools pool_base0

-- ===========================================================================
-- C1: wake handling in Idle versus the hello handshake
-- ===========================================================================

/-- C1, counterexample.  The claim says that in Idle a `WakeDetected` event
enters Recording and sends `listen{state=detect}` then
`listen{state=start,mode=auto}` only if the server's `hello` reply has been
received, and that before the reply no wake event is accepted into
Recording and no `listen{state=start}` goes out.  In the code the Idle
wake branch never consults `g_hello_acked`: from the concrete
pre-handshake state (connected, `hello_acked = false`), the wake event is
accepted into Recording and both `listen` messages are delivered. -/
theorem c1_wake_before_hello_cex :
    ctrl_state_pre_hello.hello_acked = false
  ∧ ctrl_state_pre_hello.ws_connected = true
  ∧ (fsm_handle_event ctrl_state_pre_hello
       fsm_event_type_t.FSM_EVENT_WAKE_DETECTED 500).1.state
      = fsm_state_t.FSM_STATE_RECORDING
  ∧ (fsm_handle_event ctrl_state_pre_hello
       fsm_event_type_t.FSM_EVENT_WAKE_DETECTED 500).2
      = [ctrl_action_t.reset_pcm_ring,
         ctrl_action_t.send_msg (out_msg_t.listen listen_state_t.detect none true),
         ctrl_action_t.send_msg
           (out_msg_t.listen listen_state_t.start (some listen_mode_t.auto) false),
         ctrl_action_t.audio_cmd audio_cmd_t.AUDIO_CMD_START_RECORDING] := by
  decide

/-- C1, amended.  In Idle, a `WakeDetected` event always enters Recording
and always emits `listen{state=detect}` followed by
`listen{state=start,mode=auto}` (delivered when the transport is
connected, dropped otherwise), independently of whether the server's
`hello` reply has been received: the handshake is not a precondition for
accepting wake events into Recording. -/
theorem c1_wake_in_idle_amended (st : ctrl_state_t) (now : Nat)
    (h : st.state = fsm_state_t.FSM_STATE_IDLE) :
    (fsm_handle_event st fsm_event_type_t.FSM_EVENT_WAKE_DETECTED now).1.state
      = fsm_state_t.FSM_STATE_RECORDING
  ∧ (fsm_handle_event st fsm_event_type_t.FSM_EVENT_WAKE_DETECTED now).2
      = [ctrl_action_t.reset_pcm_ring,
         ws_send_action st.ws_connected (out_msg_t.listen listen_state_t.detect none true),
         ws_send_action st.ws_connected
           (out_msg_t.listen listen_state_t.start (some listen_mode_t.auto) false),
         ctrl_action_t.audio_cmd audio_cmd_t.AUDIO_CMD_START_RECORDING] := by
  obtain ⟨s, c, ha, asn, te, sst, tst, rst, dw, ra, lr, al, mw, rx, dp, pq, fq⟩ := st
  subst h
  exact ⟨rfl, rfl⟩

/-- C1, witness for the amended theorem at the concrete pre-handshake
state. -/
theorem c1_wake_in_idle_amended_witness :
    ctrl_state_pre_hello.state = fsm_state_t.FSM_STATE_IDLE
  ∧ ((fsm_handle_event ctrl_state_pre_hello
        fsm_event_type_t.FSM_EVENT_WAKE_DETECTED 500).1.state
       = fsm_state_t.FSM_STATE_RECORDING
     ∧ (fsm_handle_event ctrl_state_pre_hello
          fsm_event_type_t.FSM_EVENT_WAKE_DETECTED 500).2
         = [ctrl_action_t.reset_pcm_ring,
            ws_send_action ctrl_state_pre_hello.ws_connected
              (out_msg_t.listen listen_state_t.detect none true),
            ws_send_action ctrl_state_pre_hello.ws_connected
              (out_msg_t.listen listen_state_t.start (some listen_mode_t.auto) false),
            ctrl_action_t.audio_cmd audio_cmd_t.AUDIO_CMD_START_RECORDING]) :=
  ⟨rfl, c1_wake_in_idle_amended ctrl_state_pre_hello 500 rfl⟩

-- ===========================================================================
-- C4: inbound audio outside Speaking/Music is dropped, counted, harmless
-- ===========================================================================

/-- C4.  A binary audio batch handled while the session state is neither
Speaking nor Music is dropped whole: the drop counter is incremented and
nothing else changes — not the session state, not the playback queue, not
the pools — and the handler returns `false` so the caller frees the batch
buffer. -/
theorem c4_stale_audio_dropped (st : ctrl_state_t) (ps : pools_t) (data : List Nat) (now : Nat)
    (h1 : st.state ≠ fsm_state_t.FSM_STATE_SPEAKING)
    (h2 : st.state ≠ fsm_state_t.FSM_STATE_MUSIC) :
    handle_ws_binary st ps data now
      = ({ st with tts_drop_count := st.tts_drop_count + 1 }, ps, false) := by
  simp only [handle_ws_binary, if_pos (And.intro h1 h2)]

/-- C4, witness: an Idle-state worker receiving a two-packet batch. -/
theorem c4_stale_audio_dropped_witness :
    (ctrl_state_idle_ok.state ≠ fsm_state_t.FSM_STATE_SPEAKING
     ∧ ctrl_state_idle_ok.state ≠ fsm_state_t.FSM_STATE_MUSIC)
  ∧ handle_ws_binary ctrl_state_idle_ok pools_fixture [0, 1, 55, 0, 1, 56] 42
      = ({ ctrl_state_idle_ok with tts_drop_count := ctrl_state_idle_ok.tts_drop_count + 1 },
         pools_fixture, false) :=
  ⟨⟨by decide, by decide⟩,
   c4_stale_audio_dropped ctrl_state_idle_ok pools_fixture [0, 1, 55, 0, 1, 56] 42
     (by decide) (by decide)⟩

-- ===========================================================================
-- C7: reconnect backoff schedule and counter reset
-- ===========================================================================

/-- The Error branch's backoff formula in closed form. -/
theorem reconnect_backoff_ms_eq (k : Nat) :
    reconnect_backoff_ms k = min (3000 * 2 ^ min k 3) 24000 := by
  rcases k with _ | _ | _ | _ | k
  · decide
  · decide
  · decide
  · decide
  · have h1 : ¬ k + 3 + 1 < 4 := by omega
    have h2 : min (k + 3 + 1) 3 = 3 := by omega
    simp only [reconnect_backoff_ms, h1, if_false, h2]
    decide

/-- C7, counterexample.  The claim says the delay before the `(k+1)`-th
reconnect attempt is `3·2^min(k,3)` seconds — 3 s before the first attempt
(`k = 0`).  In the code the Error branch launches the first attempt of an
episode immediately: with no attempt ever recorded
(`last_reconnect_tick = 0`) the condition `last_reconnect_tick == 0` fires
at the very tick the Error state is entered, zero seconds after entry. -/
theorem c7_first_attempt_immediate_cex :
    ctrl_state_error_fresh.reconnect_attempts = 0
  ∧ ctrl_state_error_fresh.last_reconnect_tick = 0
  ∧ (main_error_tick ctrl_state_error_fresh 0).2 = true
  ∧ (main_error_tick ctrl_state_error_fresh 0).1.reconnect_attempts = 1 := by
  decide

/-- C7, amended.  Once an attempt has been recorded
(`last_reconnect_tick > 0`), the next attempt launches exactly when more
than `3·2^min(k,3)` seconds (capped at 24 s) have elapsed since the last
one, where `k` is the attempt counter — the gap sequence 3, 6, 12, 24,
24, … applies from the second attempt of an episode on, while the first
attempt launches immediately; and handling `WsConnected` in Error resets
the counter to zero and recovers to Idle. -/
theorem c7_backoff_amended (st : ctrl_state_t) (now : Nat)
    (h0 : 0 < st.last_reconnect_tick) :
    ((main_error_tick st now).2 = true
      ↔ reconnect_backoff_ms st.reconnect_attempts < now - st.last_reconnect_tick)
  ∧ reconnect_backoff_ms st.reconnect_attempts
      = min (3000 * 2 ^ min st.reconnect_attempts 3) 24000
  ∧ (∀ st2 : ctrl_state_t, st2.state = fsm_state_t.FSM_STATE_ERROR →
       (fsm_handle_event st2 fsm_event_type_t.FSM_EVENT_WS_CONNECTED now).1.reconnect_attempts = 0
     ∧ (fsm_handle_event st2 fsm_event_type_t.FSM_EVENT_WS_CONNECTED now).1.state
         = fsm_state_t.FSM_STATE_IDLE) := by
  have h0' : ¬ st.last_reconnect_tick = 0 := by omega
  refine ⟨?_, reconnect_backoff_ms_eq st.reconnect_attempts, ?_⟩
  · simp only [main_error_tick, if_pos h0]
    by_cases hc : reconnect_backoff_ms st.reconnect_attempts < now - st.last_reconnect_tick
    · simp [h0', hc]
    · simp [h0', hc]
  · intro st2 h2
    obtain ⟨s, c, ha, asn, te, sst, tst, rst, dw, ra, lr, al, mw, rx, dp, pq, fq⟩ := st2
    subst h2
    exact ⟨rfl, rfl⟩

/-- C7, witness for the amended theorem: after two attempts the third
waits for the 12 s gap, and `WsConnected` in Error resets the counter. -/
theorem c7_backoff_amended_witness :
    0 < ctrl_state_error_retry.last_reconnect_tick
  ∧ (((main_error_tick ctrl_state_error_retry 100000).2 = true
       ↔ reconnect_backoff_ms ctrl_state_error_retry.reconnect_attempts
           < 100000 - ctrl_state_error_retry.last_reconnect_tick)
     ∧ reconnect_backoff_ms ctrl_state_error_retry.reconnect_attempts
         = min (3000 * 2 ^ min ctrl_state_error_retry.reconnect_attempts 3) 24000
     ∧ (∀ st2 : ctrl_state_t, st2.state = fsm_state_t.FSM_STATE_ERROR →
          (fsm_handle_event st2 fsm_event_type_t.FSM_EVENT_WS_CONNECTED
             100000).1.reconnect_attempts = 0
        ∧ (fsm_handle_event st2 fsm_event_type_t.FSM_EVENT_WS_CONNECTED 100000).1.state
            = fsm_state_t.FSM_STATE_IDLE)) :=
  ⟨by decide, c7_backoff_amended ctrl_state_error_retry 100000 (by decide)⟩

-- ===========================================================================
-- C9: what a StartRecording command resets, by sub-mode
-- ===========================================================================

/-- C9, counterexample.  The claim says every `StartRecording` command
resets both mic rings and the reference ring, in every sub-mode.  In the
code only the Playing-mode handler resets the reference ring; the dispatch
reached from Idle, Recording and Thinking resets just mic0 and mic1.  From
the Idle sub-mode with a stale reference ring (cursors 5 and 2), the
command leaves the reference ring untouched, while a reset ring has both
cursors at zero. -/
theorem c9_ref_ring_not_reset_cex :
    audio_state_idle.mode = audio_mode_t.AUDIO_MODE_IDLE
  ∧ (audio_cmd_dispatch audio_state_idle rings_fixture
       audio_cmd_t.AUDIO_CMD_START_RECORDING 2000).2.1.ref = rings_fixture.ref
  ∧ rings_fixture.ref.write_pos = 5
  ∧ rings_fixture.ref.read_pos = 2
  ∧ (ringbuffer_reset rings_fixture.ref).write_pos = 0
  ∧ (ringbuffer_reset rings_fixture.ref).read_pos = 0 := by
  exact ⟨rfl, rfl, rfl, rfl, rfl, rfl⟩

/-- C9, amended.  A `StartRecording` command always enters the Recording
sub-mode, records the start timestamp, clears the codec accumulator and
the silence timer, and resets the mic0 and mic1 rings; the reference ring
(and the decoder, and echo cancellation) is additionally reset only when
the command arrives in the Playing sub-mode. -/
theorem c9_start_recording_amended (st : audio_task_state_t) (rings : audio_rings_t) (now : Nat) :
    audio_cmd_dispatch st rings audio_cmd_t.AUDIO_CMD_START_RECORDING now
      = ({ st with mode := audio_mode_t.AUDIO_MODE_RECORDING
                   afe_accum_count := 0
                   silence_start_time := 0
                   recording_start_time := now },
         { rings with pcm := ringbuffer_reset rings.pcm
                      mic1 := ringbuffer_reset rings.mic1 }, [])
  ∧ playing_block_cmd st rings audio_cmd_t.AUDIO_CMD_START_RECORDING now
      = ({ st with mode := audio_mode_t.AUDIO_MODE_RECORDING
                   afe_accum_count := 0
                   silence_start_time := 0
                   recording_start_time := now },
         { rings with pcm := ringbuffer_reset rings.pcm
                      ref := ringbuffer_reset rings.ref
                      mic1 := ringbuffer_reset rings.mic1 },
         [audio_action_t.decoder_reset, audio_action_t.enable_aec false]) :=
  ⟨rfl, rfl⟩

-- ===========================================================================
-- C5: wake gating (acoustic mute in Speaking/Music, AEC cooldown, touch)
-- ===========================================================================

/-- C5.  Acoustic wake events are discarded at the source while within
300 ms of a playback start (the `StartPlayback` command arms the
AEC-convergence deadline at `now + 300` and the front-end wake callback
refuses to set the wake bit before it), and are discarded by the main loop
while the session state is Speaking or Music; a touch wake event is
forwarded to the state machine in every session state, through a path that
consults neither the session state nor the convergence deadline. -/
theorem c5_wake_gating :
    (∀ now until_t : Nat, now < until_t → afe_wake_callback_fires now until_t = false)
  ∧ (∀ (st : audio_task_state_t) (rings : audio_rings_t) (now : Nat),
       (audio_cmd_dispatch st rings audio_cmd_t.AUDIO_CMD_START_PLAYBACK now).1.aec_convergence_until
         = now + 300)
  ∧ (∀ st : ctrl_state_t,
       st.state = fsm_state_t.FSM_STATE_SPEAKING ∨ st.state = fsm_state_t.FSM_STATE_MUSIC →
       main_wake_forward st = st)
  ∧ (∀ st : ctrl_state_t,
       st.state ≠ fsm_state_t.FSM_STATE_SPEAKING → st.state ≠ fsm_state_t.FSM_STATE_MUSIC →
       st.fsm_queue.length < 16 →
       main_wake_forward st
         = { st with fsm_queue := st.fsm_queue ++ [fsm_event_type_t.FSM_EVENT_WAKE_DETECTED] })
  ∧ (∀ st : ctrl_state_t, st.fsm_queue.length < 16 →
       main_touch_wake_forward st
         = { st with fsm_queue := st.fsm_queue ++ [fsm_event_type_t.FSM_EVENT_WAKE_DETECTED] }) := by
  refine ⟨?_, ?_, ?_, ?_, ?_⟩
  · intro now until_t h
    simp [afe_wake_callback_fires, h]
  · intro st rings now
    rfl
  · intro st h
    have : ¬ (st.state ≠ fsm_state_t.FSM_STATE_SPEAKING
              ∧ st.state ≠ fsm_state_t.FSM_STATE_MUSIC) := by
      rcases h with h | h <;> simp [h]
    simp [main_wake_forward, this]
  · intro st h1 h2 hq
    simp [main_wake_forward, h1, h2, queue_push_bounded, hq]
  · intro st hq
    simp [main_touch_wake_forward, queue_push_bounded, hq]

/-- C5, witness: the cooldown filter at tick 100 of a 300 ms window, the
deadline armed by `StartPlayback` at tick 50, the acoustic mute in Music,
the acoustic forward in Idle, and the touch forward in Music. -/
theorem c5_wake_gating_witness :
    afe_wake_callback_fires 100 350 = false
  ∧ (audio_cmd_dispatch audio_state_idle rings_fixture
       audio_cmd_t.AUDIO_CMD_START_PLAYBACK 50).1.aec_convergence_until = 50 + 300
  ∧ main_wake_forward ctrl_state_music = ctrl_state_music
  ∧ main_wake_forward ctrl_state_idle_ok
      = { ctrl_state_idle_ok with
          fsm_queue := ctrl_state_idle_ok.fsm_queue ++ [fsm_event_type_t.FSM_EVENT_WAKE_DETECTED] }
  ∧ main_touch_wake_forward ctrl_state_music
      = { ctrl_state_music with
          fsm_queue := ctrl_state_music.fsm_queue ++ [fsm_event_type_t.FSM_EVENT_WAKE_DETECTED] } :=
  ⟨c5_wake_gating.1 100 350 (by decide),
   c5_wake_gating.2.1 audio_state_idle rings_fixture 50,
   c5_wake_gating.2.2.1 ctrl_state_music (Or.inr rfl),
   c5_wake_gating.2.2.2.1 ctrl_state_idle_ok (by decide) (by decide) (by decide),
   c5_wake_gating.2.2.2.2 ctrl_state_music (by decide)⟩

-- ===========================================================================
-- C8: the short-recording path still produces a server turn
-- ===========================================================================

/-- C8.  The claim (and scenario S6 of the specification) expects that
800 ms of silence over a sub-500 ms recording returns the pipeline worker
to Idle with no `listen{state=stop}` sent.  Evaluating the code: (i) in
the S6 scenario itself — recording and silence both starting at tick 1000
— the 800 ms check fires at tick 1801 with a recorded duration of 801 ms,
so the short-recording branch (duration < 500 ms) cannot be reached and
the worker enters Thinking, posting `AUDIO_EVENT_VAD_END`; (ii) even when
the short branch is forced, it posts the same `AUDIO_EVENT_VAD_END` bit
(the source comment claims a dedicated bit); (iii) the control worker in
Recording turns that bit into `RecordingEnd`, whose handler sends
`listen{state=stop}`.  So a server turn is produced either way,
contradicting the claim; the code contradicts its own comment. -/
theorem c8_short_recording_sends_stop :
    (vad_silence_check audio_state_s6 false 1801).1.mode = audio_mode_t.AUDIO_MODE_THINKING
  ∧ (vad_silence_check audio_state_s6 false 1801).2
      = [audio_action_t.set_event_bit audio_event_bit_t.vad_end]
  ∧ (vad_silence_check audio_state_short false 1801).1.mode = audio_mode_t.AUDIO_MODE_IDLE
  ∧ (vad_silence_check audio_state_short false 1801).2
      = [audio_action_t.set_event_bit audio_event_bit_t.vad_end]
  ∧ (main_vad_end_forward ctrl_state_recording).fsm_queue
      = [fsm_event_type_t.FSM_EVENT_RECORDING_END]
  ∧ ctrl_action_t.send_msg (out_msg_t.listen listen_state_t.stop none false)
      ∈ (fsm_handle_event ctrl_state_recording fsm_event_type_t.FSM_EVENT_RECORDING_END 1801).2 := by
  decide

-- ===========================================================================
-- C3: drain-wait after TtsEnd in Speaking and Music
-- ===========================================================================

/-- C3.  After `TtsEnd` has been received (and, in Speaking, while the 8 s
starvation timeout has not expired), one main-loop poll behaves as
follows, in both the Speaking and the Music case: a non-empty playback
queue resets the consecutive-empty counter to zero with no state change
and no command issued; an empty observation with fewer than ten
accumulated merely increments the counter; and the tenth consecutive empty
observation — and only it — issues `StopPlayback` and leaves the state
(to Recording or Idle from Speaking, to Idle from Music).  The loop polls
every 10 ms (`vTaskDelay(pdMS_TO_TICKS(10))`), making ten polls ≈ 100 ms. -/
theorem c3_drain_wait (st : ctrl_state_t) (now : Nat)
    (hend : st.tts_end_received = true)
    (hto : ¬ (0 < st.speaking_start_time ∧ 8000 < now - st.speaking_start_time)) :
    (st.playback_queue ≠ [] →
       main_speaking_tick st now = ({ st with drain_wait_count := 0 }, [])
     ∧ main_music_tick st = ({ st with drain_wait_count := 0 }, []))
  ∧ (st.playback_queue = [] → st.drain_wait_count + 1 < 10 →
       main_speaking_tick st now = ({ st with drain_wait_count := st.drain_wait_count + 1 }, [])
     ∧ main_music_tick st = ({ st with drain_wait_count := st.drain_wait_count + 1 }, []))
  ∧ (st.playback_queue = [] → 9 ≤ st.drain_wait_count →
       ((main_speaking_tick st now).1.state = fsm_state_t.FSM_STATE_RECORDING
        ∨ (main_speaking_tick st now).1.state = fsm_state_t.FSM_STATE_IDLE)
     ∧ ctrl_action_t.audio_cmd audio_cmd_t.AUDIO_CMD_STOP_PLAYBACK ∈ (main_speaking_tick st now).2
     ∧ (main_speaking_tick st now).1.drain_wait_count = 0
     ∧ (main_music_tick st).1.state = fsm_state_t.FSM_STATE_IDLE
     ∧ (main_music_tick st).2 = [ctrl_action_t.audio_cmd audio_cmd_t.AUDIO_CMD_STOP_PLAYBACK]) := by
  refine ⟨?_, ?_, ?_⟩
  · intro hq
    have hq' : ¬ st.playback_queue.length = 0 := by
      simpa [List.length_eq_zero] using hq
    constructor
    · simp [main_speaking_tick, hto, hend, hq']
    · simp [main_music_tick, hend, hq']
  · intro hq hcnt
    have hq' : st.playback_queue.length = 0 := by simp [hq]
    have hcnt' : ¬ 10 ≤ st.drain_wait_count + 1 := by omega
    constructor
    · simp [main_speaking_tick, hto, hend, hq', hcnt']
    · simp [main_music_tick, hend, hq', hcnt']
  · intro hq hcnt
    have hq' : st.playback_queue.length = 0 := by simp [hq]
    have hcnt' : 10 ≤ st.drain_wait_count + 1 := by omega
    cases hA : st.auto_listen_enabled <;> cases hW : st.ws_connected <;>
        cases hM : st.music_was_playing <;>
      simp [main_speaking_tick, main_music_tick, hto, hend, hq', hcnt', hA, hW, hM]

/-- C3, witness: the drain-wait state on its tenth consecutive empty
observation, timer disarmed. -/
theorem c3_drain_wait_witness :
    ctrl_state_draining.tts_end_received = true
  ∧ ¬ (0 < ctrl_state_draining.speaking_start_time
       ∧ 8000 < 200 - ctrl_state_draining.speaking_start_time)
  ∧ ((main_speaking_tick ctrl_state_draining 200).1.state = fsm_state_t.FSM_STATE_RECORDING
     ∨ (main_speaking_tick ctrl_state_draining 200).1.state = fsm_state_t.FSM_STATE_IDLE)
  ∧ ctrl_action_t.audio_cmd audio_cmd_t.AUDIO_CMD_STOP_PLAYBACK
      ∈ (main_speaking_tick ctrl_state_draining 200).2
  ∧ (main_music_tick ctrl_state_draining).1.state = fsm_state_t.FSM_STATE_IDLE :=
  ⟨rfl, by decide,
   ((c3_drain_wait ctrl_state_draining 200 rfl (by decide)).2.2 rfl (by decide)).1,
   ((c3_drain_wait ctrl_state_draining 200 rfl (by decide)).2.2 rfl (by decide)).2.1,
   ((c3_drain_wait ctrl_state_draining 200 rfl (by decide)).2.2 rfl (by decide)).2.2.2.1⟩

-- ===========================================================================
-- C10: pool_free only touches the pool when the pointer is in its region
-- ===========================================================================

/-- C10.  `pool_free` marks a block free (and bumps the release counter)
exactly when the pointer lies inside the pool's backing region — the
computed block index then falls in `0..block_count-1`; for any pointer
outside the region (including pointers into another class's region, and
the null pointer) the pool's bitmap and release counter are left
unchanged, so a cross-class release can leak the original block but never
corrupts the target pool's free map.  The hypotheses say the pointer and
the region live in the 32-bit address space and the region has a nonzero
heap base. -/
theorem c10_pool_free_region_guard (p : memory_pool_t) (ptr : Nat)
    (hbs : 0 < p.block_size) (hmem : 0 < p.memory)
    (hptr : ptr < UINT32_LIMIT)
    (hreg : p.memory + p.block_size * p.block_count ≤ UINT32_LIMIT) :
    ((ptr < p.memory ∨ p.memory + p.block_size * p.block_count ≤ ptr) → pool_free p ptr = p)
  ∧ (p.memory ≤ ptr → ptr < p.memory + p.block_size * p.block_count →
       pool_free p ptr
         = { p with free_bitmap := p.free_bitmap ||| (1 <<< ((ptr - p.memory) / p.block_size)),
                    free_count := p.free_count + 1 }) := by
  constructor
  · intro h
    by_cases hz : ptr = 0
    · simp [pool_free, hz]
    · rcases h with h | h
      · have hoff : (ptr + UINT32_LIMIT - p.memory) % UINT32_LIMIT
            = ptr + UINT32_LIMIT - p.memory := by
          apply Nat.mod_eq_of_lt
          omega
        have hbig : p.block_size * p.block_count ≤ ptr + UINT32_LIMIT - p.memory := by
          omega
        have hidx : ¬ (ptr + UINT32_LIMIT - p.memory) / p.block_size < p.block_count := by
          push_neg
          rw [Nat.le_div_iff_mul_le hbs]
          calc p.block_count * p.block_size = p.block_size * p.block_count := Nat.mul_comm _ _
            _ ≤ ptr + UINT32_LIMIT - p.memory := hbig
        simp [pool_free, hz, hoff, hidx]
      · have e1 : ptr + UINT32_LIMIT - p.memory = (ptr - p.memory) + UINT32_LIMIT := by omega
        have hoff : (ptr + UINT32_LIMIT - p.memory) % UINT32_LIMIT = ptr - p.memory := by
          rw [e1, Nat.add_mod_right]
          exact Nat.mod_eq_of_lt (by omega)
        have hidx : ¬ (ptr - p.memory) / p.block_size < p.block_count := by
          push_neg
          rw [Nat.le_div_iff_mul_le hbs]
          calc p.block_count * p.block_size = p.block_size * p.block_count := Nat.mul_comm _ _
            _ ≤ ptr - p.memory := by omega
        simp [pool_free, hz, hoff, hidx]
  · intro hge hlt
    have hz : ¬ ptr = 0 := by omega
    have e1 : ptr + UINT32_LIMIT - p.memory = (ptr - p.memory) + UINT32_LIMIT := by omega
    have hoff : (ptr + UINT32_LIMIT - p.memory) % UINT32_LIMIT = ptr - p.memory := by
      rw [e1, Nat.add_mod_right]
      exact Nat.mod_eq_of_lt (by omega)
    have hidx : (ptr - p.memory) / p.block_size < p.block_count := by
      rw [Nat.div_lt_iff_lt_mul hbs]
      calc ptr - p.memory < p.block_size * p.block_count := by omega
        _ = p.block_count * p.block_size := Nat.mul_comm _ _
    simp [pool_free, hz, hoff, hidx]

/-- C10, witness: the 256-byte pool at base 1200000; the pointer 1200010
(inside, block 0) marks a block free, the pointer 1199999 (just below the
region) and the pointer of another class (1000000) leave the pool
unchanged. -/
theorem c10_pool_free_region_guard_witness :
    (0 < (pools_fixture pool_type_t.POOL_S_256).block_size
     ∧ 0 < (pools_fixture pool_type_t.POOL_S_256).memory
     ∧ (1199999 : Nat) < UINT32_LIMIT
     ∧ (pools_fixture pool_type_t.POOL_S_256).memory
         + (pools_fixture pool_type_t.POOL_S_256).block_size
           * (pools_fixture pool_type_t.POOL_S_256).block_count ≤ UINT32_LIMIT)
  ∧ pool_free (pools_fixture pool_type_t.POOL_S_256) 1199999
      = pools_fixture pool_type_t.POOL_S_256
  ∧ pool_free (pools_fixture pool_type_t.POOL_S_256) 1000000
      = pools_fixture pool_type_t.POOL_S_256
  ∧ pool_free (pools_fixture pool_type_t.POOL_S_256) 1200010
      = { pools_fixture pool_type_t.POOL_S_256 with
          free_bitmap := (pools_fixture pool_type_t.POOL_S_256).free_bitmap
            ||| (1 <<< ((1200010 - (pools_fixture pool_type_t.POOL_S_256).memory)
                  / (pools_fixture pool_type_t.POOL_S_256).block_size))
          free_count := (pools_fixture pool_type_t.POOL_S_256).free_count + 1 } :=
  ⟨⟨by decide, by decide, by decide, by decide⟩,
   (c10_pool_free_region_guard (pools_fixture pool_type_t.POOL_S_256) 1199999
     (by decide) (by decide) (by decide) (by decide)).1 (by decide),
   (c10_pool_free_region_guard (pools_fixture pool_type_t.POOL_S_256) 1000000
     (by decide) (by decide) (by decide) (by decide)).1 (by decide),
   (c10_pool_free_region_guard (pools_fixture pool_type_t.POOL_S_256) 1200010
     (by decide) (by decide) (by decide) (by decide)).2 (by decide) (by decide)⟩

-- ===========================================================================
-- Bitmap helper lemmas for the pool allocator
-- ===========================================================================

/-- `ctz_aux` finds a set bit: the bit it returns is set whenever the input
is nonzero and within the fuel's range. -/
theorem ctz_aux_testBit :
    ∀ fuel b, b ≠ 0 → b < 2 ^ fuel → Nat.testBit b (ctz_aux fuel b) = true := by
  intro fuel
  induction fuel with
  | zero =>
    intro b hb hlt
    omega
  | succ fuel ih =>
    intro b hb hlt
    by_cases hpar : b % 2 = 1
    · simp [ctz_aux, hpar]
    · have hb2 : b / 2 ≠ 0 := by omega
      have hlt2 : b / 2 < 2 ^ fuel := by
        have : 2 ^ (fuel + 1) = 2 ^ fuel * 2 := by ring
        omega
      have := ih (b / 2) hb2 hlt2
      simp only [ctz_aux, hpar, if_false]
      rw [Nat.testBit_succ]
      exact this

/-- The bit index `builtin_ctz` returns stays below any bit-width bound of
its input. -/
theorem builtin_ctz_lt (b k : Nat) (hb : b ≠ 0) (hk : b < 2 ^ k) (hk32 : k ≤ 32) :
    builtin_ctz b < k := by
  have hb32 : b < 2 ^ 32 := lt_of_lt_of_le hk (Nat.pow_le_pow_right (by omega) hk32)
  have ht := ctz_aux_testBit 32 b hb hb32
  by_contra hge
  have hle : 2 ^ k ≤ 2 ^ builtin_ctz b := Nat.pow_le_pow_right (by omega) (by omega)
  have := Nat.testBit_eq_false_of_lt (lt_of_lt_of_le hk hle)
  rw [builtin_ctz] at this
  rw [this] at ht
  exact Bool.false_ne_true ht

/-- Bits of the 32-bit all-ones mask. -/
theorem testBit_uint32_mask (j : Nat) : Nat.testBit UINT32_MASK j = decide (j < 32) := by
  have h : UINT32_MASK = 2 ^ 32 - 1 := by decide
  rw [h, Nat.testBit_two_pow_sub_one]

/-- Clearing a set bit of a 32-bit word and setting it again restores the
word (`(b & ~(1 << i)) | (1 << i) = b`). -/
theorem clear_then_set_restore (b i : Nat) (hb : b < 2 ^ 32) (hi : i < 32)
    (hbit : Nat.testBit b i = true) :
    b &&& (UINT32_MASK ^^^ (1 <<< i)) ||| (1 <<< i) = b := by
  have hshift : (1 : Nat) <<< i = 2 ^ i := by
    rw [Nat.shiftLeft_eq, Nat.one_mul]
  apply Nat.eq_of_testBit_eq
  intro j
  by_cases hji : j = i
  · subst hji
    simp [Nat.testBit_lor, Nat.testBit_land, Nat.testBit_xor, hshift,
      testBit_uint32_mask, Nat.testBit_two_pow_self, hbit, hi]
  · have hij : i ≠ j := fun h => hji h.symm
    by_cases hj32 : j < 32
    · simp [Nat.testBit_lor, Nat.testBit_land, Nat.testBit_xor, hshift,
        testBit_uint32_mask, Nat.testBit_two_pow_of_ne hij, hj32]
    · have hbj : Nat.testBit b j = false := by
        apply Nat.testBit_eq_false_of_lt
        exact lt_of_lt_of_le hb (Nat.pow_le_pow_right (by omega) (by omega))
      simp [Nat.testBit_lor, Nat.testBit_land, Nat.testBit_xor, hshift,
        testBit_uint32_mask, Nat.testBit_two_pow_of_ne hij, hj32, hbj]

/-- `pool_free` at the exact address of block `i` marks block `i` free and
bumps the release counter. -/
theorem pool_free_at_block (p : memory_pool_t) (i : Nat)
    (hbs : 0 < p.block_size) (hmem : 0 < p.memory)
    (hsz : i * p.block_size < UINT32_LIMIT) (hi : i < p.block_count) :
    pool_free p (p.memory + i * p.block_size)
      = { p with free_bitmap := p.free_bitmap ||| (1 <<< i),
                 free_count := p.free_count + 1 } := by
  have hz : ¬ p.memory + i * p.block_size = 0 := by omega
  have e1 : p.memory + i * p.block_size + UINT32_LIMIT - p.memory
      = i * p.block_size + UINT32_LIMIT := by omega
  have hoff : (p.memory + i * p.block_size + UINT32_LIMIT - p.memory) % UINT32_LIMIT
      = i * p.block_size := by
    rw [e1, Nat.add_mod_right]
    exact Nat.mod_eq_of_lt hsz
  have hdiv : i * p.block_size / p.block_size = i := Nat.mul_div_cancel i hbs
  simp [pool_free, hz, hoff, hdiv, hi]

/-- Geometry bounds of the configured pool classes. -/
theorem init_pool_config_bounds (t : pool_type_t) :
    0 < (init_pool_config t).1 ∧ (init_pool_config t).1 ≤ 4096
  ∧ (init_pool_config t).2 ≤ 32 := by
  cases t <;> exact ⟨by decide, by decide, by decide⟩

-- ===========================================================================
-- C2: transport-buffer round trips through pool_free_by_size
-- ===========================================================================

/-- C2, counterexample.  The claim covers every payload length 1..4096,
but for `len = 64` the transport callback allocates from the 256-byte
class while `pool_free_by_size(ptr, 64)` picks the 64-byte class, whose
region the pointer is not in: after the round trip the 256-byte class has
one acquire, zero releases, and its free bitmap still missing the block —
the block leaks instead of returning to the class it came from. -/
theorem c2_small_len_wrong_class_cex :
    ws_handler_pool_type 64 = pool_type_t.POOL_S_256
  ∧ (pools_alloc pools_fixture (ws_handler_pool_type 64)).1 = some 1200000
  ∧ (pool_free_by_size (pools_alloc pools_fixture (ws_handler_pool_type 64)).2 1200000 64
       pool_type_t.POOL_S_256).alloc_count = 1
  ∧ (pool_free_by_size (pools_alloc pools_fixture (ws_handler_pool_type 64)).2 1200000 64
       pool_type_t.POOL_S_256).free_count = 0
  ∧ (pool_free_by_size (pools_alloc pools_fixture (ws_handler_pool_type 64)).2 1200000 64
       pool_type_t.POOL_S_256).free_bitmap
      ≠ (pools_fixture pool_type_t.POOL_S_256).free_bitmap := by
  decide

/-- C2, amended.  For payload lengths 129..4096, `pool_free_by_size(ptr,
len)` selects exactly the class the transport callback acquired from, so
the round trip restores that class's free bitmap and leaves every class's
acquire-minus-release balance unchanged (the round-tripped class gets one
acquire and one release, the others are untouched).  For lengths at most
128 the helper picks the 64- or 128-byte class instead of the acquiring
256-byte class, and the balance is broken (see the counterexample). -/
theorem c2_roundtrip_amended (ps : pools_t) (len : Nat) (hwf : pools_wf ps)
    (h1 : 129 ≤ len) (h2 : len ≤ 4096)
    (hne : (ps (ws_handler_pool_type len)).free_bitmap ≠ 0) :
    (pools_alloc ps (ws_handler_pool_type len)).1
      = some ((ps (ws_handler_pool_type len)).memory
          + builtin_ctz (ps (ws_handler_pool_type len)).free_bitmap
            * (ps (ws_handler_pool_type len)).block_size)
  ∧ pool_free_by_size (pools_alloc ps (ws_handler_pool_type len)).2
        ((ps (ws_handler_pool_type len)).memory
          + builtin_ctz (ps (ws_handler_pool_type len)).free_bitmap
            * (ps (ws_handler_pool_type len)).block_size) len
      = Function.update ps (ws_handler_pool_type len)
          { ps (ws_handler_pool_type len) with
            alloc_count := (ps (ws_handler_pool_type len)).alloc_count + 1
            free_count := (ps (ws_handler_pool_type len)).free_count + 1 } := by
  set t := ws_handler_pool_type len with ht
  obtain ⟨hbs_eq, hcnt_eq, hbm, hmem⟩ := hwf t
  obtain ⟨hbs_pos, hbs_le, hcnt_le⟩ := init_pool_config_bounds t
  have hbs : 0 < (ps t).block_size := hbs_eq ▸ hbs_pos
  have hbs4096 : (ps t).block_size ≤ 4096 := hbs_eq ▸ hbs_le
  have hcnt32 : (ps t).block_count ≤ 32 := hcnt_eq ▸ hcnt_le
  have hi_lt : builtin_ctz (ps t).free_bitmap < (ps t).block_count :=
    builtin_ctz_lt _ _ hne hbm hcnt32
  have hi32 : builtin_ctz (ps t).free_bitmap < 32 := lt_of_lt_of_le hi_lt hcnt32
  have hb32 : (ps t).free_bitmap < 2 ^ 32 :=
    lt_of_lt_of_le hbm (Nat.pow_le_pow_right (by omega) hcnt32)
  have hbit : Nat.testBit (ps t).free_bitmap (builtin_ctz (ps t).free_bitmap) = true :=
    ctz_aux_testBit 32 _ hne hb32
  have hsz : builtin_ctz (ps t).free_bitmap * (ps t).block_size < UINT32_LIMIT := by
    have : builtin_ctz (ps t).free_bitmap * (ps t).block_size ≤ 31 * 4096 :=
      Nat.mul_le_mul (by omega) hbs4096
    have hL : (31 : Nat) * 4096 < UINT32_LIMIT := by decide
    omega
  -- the allocation result, projection by projection
  have halloc1 : (pools_alloc ps t).1
      = some ((ps t).memory + builtin_ctz (ps t).free_bitmap * (ps t).block_size) := by
    simp [pools_alloc, pool_alloc, hne]
  have halloc2 : (pools_alloc ps t).2
      = Function.update ps t
          { ps t with
            free_bitmap := (ps t).free_bitmap
              &&& (UINT32_MASK ^^^ (1 <<< builtin_ctz (ps t).free_bitmap))
            alloc_count := (ps t).alloc_count + 1 } := by
    simp [pools_alloc, pool_alloc, hne]
  -- the helper selects the acquiring class for len ≥ 129
  have hsel : (if len ≤ 64 then pool_type_t.POOL_S_64
               else if len ≤ 128 then pool_type_t.POOL_S_128
               else if len ≤ 256 then pool_type_t.POOL_S_256
               else if len ≤ 2048 then pool_type_t.POOL_L_2K
               else pool_type_t.POOL_L_4K) = t := by
    rw [ht]
    have h64 : ¬ len ≤ 64 := by omega
    have h128 : ¬ len ≤ 128 := by omega
    by_cases h256 : len ≤ 256
    · simp [ws_handler_pool_type, h64, h128, h256]
    · by_cases h2048 : len ≤ 2048
      · simp [ws_handler_pool_type, h64, h128, h256, h2048]
      · simp [ws_handler_pool_type, h64, h128, h256, h2048]
  constructor
  · exact halloc1
  · rw [halloc2]
    have hz : ¬ (ps t).memory + builtin_ctz (ps t).free_bitmap * (ps t).block_size = 0 := by
      omega
    rw [pool_free_by_size, if_neg hz, hsel, pools_free, Function.update_same,
      Function.update_idem]
    have hfree := pool_free_at_block
      { ps t with
        free_bitmap := (ps t).free_bitmap
          &&& (UINT32_MASK ^^^ (1 <<< builtin_ctz (ps t).free_bitmap))
        alloc_count := (ps t).alloc_count + 1 }
      (builtin_ctz (ps t).free_bitmap) hbs hmem hsz hi_lt
    rw [hfree]
    have hrestore := clear_then_set_restore (ps t).free_bitmap
      (builtin_ctz (ps t).free_bitmap) hb32 hi32 hbit
    simp only [hrestore]

/-- C2, witness for the amended theorem: a 200-byte payload round-trips
through the 256-byte class of the freshly initialised pool table. -/
theorem c2_roundtrip_amended_witness :
    pools_wf pools_fixture
  ∧ (129 ≤ 200 ∧ 200 ≤ 4096
     ∧ (pools_fixture (ws_handler_pool_type 200)).free_bitmap ≠ 0)
  ∧ ((pools_alloc pools_fixture (ws_handler_pool_type 200)).1
      = some ((pools_fixture (ws_handler_pool_type 200)).memory
          + builtin_ctz (pools_fixture (ws_handler_pool_type 200)).free_bitmap
            * (pools_fixture (ws_handler_pool_type 200)).block_size)
     ∧ pool_free_by_size (pools_alloc pools_fixture (ws_handler_pool_type 200)).2
          ((pools_fixture (ws_handler_pool_type 200)).memory
            + builtin_ctz (pools_fixture (ws_handler_pool_type 200)).free_bitmap
              * (pools_fixture (ws_handler_pool_type 200)).block_size) 200
        = Function.update pools_fixture (ws_handler_pool_type 200)
            { pools_fixture (ws_handler_pool_type 200) with
              alloc_count := (pools_fixture (ws_handler_pool_type 200)).alloc_count + 1
              free_count := (pools_fixture (ws_handler_pool_type 200)).free_count + 1 }) :=
  ⟨fun t => by cases t <;> exact ⟨rfl, rfl, by decide, by decide⟩,
   ⟨by decide, by decide, by decide⟩,
   c2_roundtrip_amended pools_fixture 200
     (fun t => by cases t <;> exact ⟨rfl, rfl, by decide, by decide⟩)
     (by decide) (by decide) (by decide)⟩

-- ===========================================================================
-- Ring buffer helper lemmas
-- ===========================================================================

/-- Reduction of a modulus applied to a value below twice the modulus. -/
theorem two_block_mod (C a : Nat) (h : a < 2 * C) : a % C = if a < C then a else a - C := by
  split
  · exact Nat.mod_eq_of_lt (by assumption)
  · have hC : C ≤ a := by omega
    rw [Nat.mod_eq_sub_mod hC]
    exact Nat.mod_eq_of_lt (by omega)

/-- Cancellation of a common left summand under a modulus, for small
offsets. -/
theorem add_mod_inj (C r a b : Nat) (ha : a < C) (hb : b < C)
    (h : (r + a) % C = (r + b) % C) : a = b := by
  have h1 : a ≡ b [MOD C] := Nat.ModEq.add_left_cancel' r h
  unfold Nat.ModEq at h1
  rw [Nat.mod_eq_of_lt ha, Nat.mod_eq_of_lt hb] at h1
  exact h1

/-- A modulus inside a left-added term can be dropped. -/
theorem mod_add_mod_left (C r x : Nat) : (r + x % C) % C = (r + x) % C :=
  Nat.ModEq.add_left r (Nat.mod_modEq x C)

/-- The two cursor-derived quantities partition the ring minus the
reserved slot. -/
theorem ringbuffer_occ_add_free (rb : pcm_ringbuffer_t) (h : ringbuffer_valid rb) :
    ringbuffer_occupancy rb + ringbuffer_free_space rb = rb.capacity - 1 := by
  obtain ⟨hC, hw, hr⟩ := h
  unfold ringbuffer_occupancy ringbuffer_free_space
  rw [two_block_mod _ _ (by omega), two_block_mod _ _ (by omega)]
  split_ifs <;> omega

/-- Occupancy stays below the capacity. -/
theorem ringbuffer_occupancy_lt (rb : pcm_ringbuffer_t) (h : ringbuffer_valid rb) :
    ringbuffer_occupancy rb < rb.capacity :=
  Nat.mod_lt _ h.1

/-- The write cursor sits `occupancy` slots past the read cursor. -/
theorem ringbuffer_write_pos_eq (rb : pcm_ringbuffer_t) (h : ringbuffer_valid rb) :
    (rb.read_pos + ringbuffer_occupancy rb) % rb.capacity = rb.write_pos := by
  obtain ⟨hC, hw, hr⟩ := h
  unfold ringbuffer_occupancy
  rw [mod_add_mod_left]
  have he : rb.read_pos + (rb.write_pos + rb.capacity - rb.read_pos)
      = rb.write_pos + rb.capacity := by omega
  rw [he, Nat.add_mod_right]
  exact Nat.mod_eq_of_lt hw

/-- `getD` through `take`, within the taken prefix. -/
theorem list_getD_take (l : List Int) (n m : Nat) (h : m < n) :
    (l.take n).getD m 0 = l.getD m 0 := by
  simp [List.getD_eq_getElem?_getD, List.getElem?_take_of_lt h]

/-- `getD` through `drop`. -/
theorem list_getD_drop (l : List Int) (k m : Nat) :
    (l.drop k).getD m 0 = l.getD (k + m) 0 := by
  simp [List.getD_eq_getElem?_getD, List.getElem?_drop]

/-- Pointwise form of `store_list`. -/
theorem store_list_eval (buf : Nat → Int) (start : Nat) (xs : List Int) (i : Nat) :
    store_list buf start xs i
      = if start ≤ i ∧ i < start + xs.length then xs.getD (i - start) 0 else buf i := rfl

/-- Characterisation of `ringbuffer_write`: the returned count is the
minimum of the request and the free space; the cursors move as in the
source; the stored samples land at consecutive physical slots after the
write cursor; and every other slot is untouched. -/
theorem ringbuffer_write_spec (rb : pcm_ringbuffer_t) (data : List Int)
    (h : ringbuffer_valid rb) :
    (ringbuffer_write rb data).2 = min data.length (ringbuffer_free_space rb)
  ∧ (ringbuffer_write rb data).1.capacity = rb.capacity
  ∧ (ringbuffer_write rb data).1.read_pos = rb.read_pos
  ∧ (ringbuffer_write rb data).1.write_pos
      = (rb.write_pos + min data.length (ringbuffer_free_space rb)) % rb.capacity
  ∧ (∀ m, m < min data.length (ringbuffer_free_space rb) →
       (ringbuffer_write rb data).1.buffer ((rb.write_pos + m) % rb.capacity)
         = data.getD m 0)
  ∧ (∀ i, (∀ m, m < min data.length (ringbuffer_free_space rb) →
         i ≠ (rb.write_pos + m) % rb.capacity) →
       (ringbuffer_write rb data).1.buffer i = rb.buffer i) := by
  obtain ⟨hC, hw, hr⟩ := h
  have hfree_lt : ringbuffer_free_space rb < rb.capacity := Nat.mod_lt _ hC
  by_cases hd0 : data.length = 0
  · have hz : min data.length (ringbuffer_free_space rb) = 0 := by simp [hd0]
    rw [ringbuffer_write, if_pos hd0, hz]
    refine ⟨rfl, rfl, rfl, ?_, ?_, ?_⟩
    · rw [Nat.add_zero, Nat.mod_eq_of_lt hw]
    · intro m hm
      omega
    · intro i _
      rfl
  · have hfs : (rb.read_pos + rb.capacity - (rb.write_pos + 1)) % rb.capacity
        = ringbuffer_free_space rb := rfl
    have hminraw : (if data.length
          < (rb.read_pos + rb.capacity - (rb.write_pos + 1)) % rb.capacity
        then data.length
        else (rb.read_pos + rb.capacity - (rb.write_pos + 1)) % rb.capacity)
        = min data.length (ringbuffer_free_space rb) := by
      rw [hfs, Nat.min_def]
      split_ifs <;> omega
    set t := min data.length (ringbuffer_free_space rb) with ht
    have htlen : t ≤ data.length := Nat.min_le_left _ _
    have htfree : t ≤ ringbuffer_free_space rb := Nat.min_le_right _ _
    by_cases ht0 : t = 0
    · simp only [ringbuffer_write, if_neg hd0, hminraw]
      rw [if_pos ht0]
      refine ⟨ht0.symm, rfl, rfl, ?_, ?_, ?_⟩
      · rw [ht0, Nat.add_zero, Nat.mod_eq_of_lt hw]
      · intro m hm
        omega
      · intro i _
        rfl
    · simp only [ringbuffer_write, if_neg hd0, hminraw]
      rw [if_neg ht0]
      refine ⟨rfl, rfl, rfl, rfl, ?_, ?_⟩
      · -- stored samples
        intro m hm
        dsimp only
        by_cases hb1 : t ≤ rb.capacity - rb.write_pos
        · rw [if_pos hb1]
          have hidx : (rb.write_pos + m) % rb.capacity = rb.write_pos + m :=
            Nat.mod_eq_of_lt (by omega)
          rw [hidx, store_list_eval]
          have hlen : (data.take t).length = t := by
            rw [List.length_take]
            omega
          rw [hlen, if_pos (by omega)]
          have hsub : rb.write_pos + m - rb.write_pos = m := by omega
          rw [hsub, list_getD_take _ _ _ hm]
        · rw [if_neg hb1]
          have hp1 : rb.capacity - rb.write_pos < t := by omega
          have hlen1 : (data.take (rb.capacity - rb.write_pos)).length
              = rb.capacity - rb.write_pos := by
            rw [List.length_take]
            omega
          have hlen2 : ((data.drop (rb.capacity - rb.write_pos)).take
              (t - (rb.capacity - rb.write_pos))).length
              = t - (rb.capacity - rb.write_pos) := by
            rw [List.length_take, List.length_drop]
            omega
          have htC : t ≤ rb.capacity - 1 := by omega
          by_cases hm1 : m < rb.capacity - rb.write_pos
          · have hidx : (rb.write_pos + m) % rb.capacity = rb.write_pos + m :=
              Nat.mod_eq_of_lt (by omega)
            rw [hidx, store_list_eval, hlen2, if_neg (by omega), store_list_eval, hlen1,
              if_pos (by omega)]
            have hsub : rb.write_pos + m - rb.write_pos = m := by omega
            rw [hsub, list_getD_take _ _ _ hm1]
          · have hidx : (rb.write_pos + m) % rb.capacity
                = m - (rb.capacity - rb.write_pos) := by
              rw [two_block_mod _ _ (by omega), if_neg (by omega)]
              omega
            rw [hidx, store_list_eval, hlen2, if_pos (by omega), Nat.sub_zero,
              list_getD_take _ _ _ (by omega), list_getD_drop]
            have he : rb.capacity - rb.write_pos + (m - (rb.capacity - rb.write_pos)) = m := by
              omega
            rw [he]
      · -- untouched slots
        intro i hni
        dsimp only
        by_cases hb1 : t ≤ rb.capacity - rb.write_pos
        · rw [if_pos hb1, store_list_eval]
          have hlen : (data.take t).length = t := by
            rw [List.length_take]
            omega
          rw [hlen]
          split
          · rename_i hcond
            exfalso
            apply hni (i - rb.write_pos) (by omega)
            rw [Nat.mod_eq_of_lt (by omega)]
            omega
          · rfl
        · have hp1 : rb.capacity - rb.write_pos < t := by omega
          have htC : t ≤ rb.capacity - 1 := by omega
          have hlen1 : (data.take (rb.capacity - rb.write_pos)).length
              = rb.capacity - rb.write_pos := by
            rw [List.length_take]
            omega
          have hlen2 : ((data.drop (rb.capacity - rb.write_pos)).take
              (t - (rb.capacity - rb.write_pos))).length
              = t - (rb.capacity - rb.write_pos) := by
            rw [List.length_take, List.length_drop]
            omega
          rw [if_neg hb1, store_list_eval, hlen2]
          split
          · rename_i hcond
            exfalso
            apply hni (i + (rb.capacity - rb.write_pos)) (by omega)
            rw [two_block_mod _ _ (by omega), if_neg (by omega)]
            omega
          · rw [store_list_eval, hlen1]
            split
            · rename_i hcond2
              exfalso
              apply hni (i - rb.write_pos) (by omega)
              rw [Nat.mod_eq_of_lt (by omega)]
              omega
            · rfl

/-- Advancing the write cursor by `t` (within the free space) grows the
occupancy by `t`. -/
theorem occ_shift (C w r t : Nat) (hC : 0 < C) (hw : w < C) (hr : r < C)
    (hb : (w + C - r) % C + t ≤ C - 1) :
    ((w + t) % C + C - r) % C = (w + C - r) % C + t := by
  rcases Nat.lt_or_ge w r with hwr | hwr
  · have ho : (w + C - r) % C = w + C - r := Nat.mod_eq_of_lt (by omega)
    rw [ho] at hb ⊢
    rw [Nat.mod_eq_of_lt (show w + t < C by omega)]
    rw [Nat.mod_eq_of_lt (show w + t + C - r < C by omega)]
    omega
  · have ho : (w + C - r) % C = w - r := by
      rw [show w + C - r = (w - r) + C by omega, Nat.add_mod_right]
      exact Nat.mod_eq_of_lt (by omega)
    rw [ho] at hb ⊢
    by_cases hwt : w + t < C
    · rw [Nat.mod_eq_of_lt hwt]
      rw [show w + t + C - r = (w + t - r) + C by omega, Nat.add_mod_right,
        Nat.mod_eq_of_lt (by omega)]
      omega
    · rw [show w + t = (w + t - C) + C by omega, Nat.add_mod_right,
        Nat.mod_eq_of_lt (show w + t - C < C by omega)]
      rw [show w + t - C + C - r = w + t - r by omega, Nat.mod_eq_of_lt (by omega)]
      omega

/-- Advancing the read cursor by `k` (within the occupancy) shrinks the
occupancy by `k`. -/
theorem occ_shift_read (C w r k : Nat) (hC : 0 < C) (hw : w < C) (hr : r < C)
    (hk : k ≤ (w + C - r) % C) :
    (w + C - (r + k) % C) % C = (w + C - r) % C - k := by
  rcases Nat.lt_or_ge w r with hwr | hwr
  · have ho : (w + C - r) % C = w + C - r := Nat.mod_eq_of_lt (by omega)
    rw [ho] at hk ⊢
    by_cases hrk : r + k < C
    · rw [Nat.mod_eq_of_lt hrk, Nat.mod_eq_of_lt (show w + C - (r + k) < C by omega)]
      omega
    · rw [show r + k = (r + k - C) + C by omega, Nat.add_mod_right,
        Nat.mod_eq_of_lt (show r + k - C < C by omega)]
      rw [show w + C - (r + k - C) = (w + C - r - k) + C by omega, Nat.add_mod_right,
        Nat.mod_eq_of_lt (by omega)]
  · have ho : (w + C - r) % C = w - r := by
      rw [show w + C - r = (w - r) + C by omega, Nat.add_mod_right]
      exact Nat.mod_eq_of_lt (by omega)
    rw [ho] at hk ⊢
    rw [Nat.mod_eq_of_lt (show r + k < C by omega)]
    rw [show w + C - (r + k) = (w - r - k) + C by omega, Nat.add_mod_right,
      Nat.mod_eq_of_lt (by omega)]

/-- An element of the ring's logical content, by physical lookup. -/
theorem ringbuffer_contents_getElem (rb : pcm_ringbuffer_t) (i : Nat)
    (h : i < (ringbuffer_contents rb).length) :
    (ringbuffer_contents rb)[i] = rb.buffer ((rb.read_pos + i) % rb.capacity) := by
  simp [ringbuffer_contents]

/-- Length of the ring's logical content. -/
theorem ringbuffer_contents_length (rb : pcm_ringbuffer_t) :
    (ringbuffer_contents rb).length = ringbuffer_occupancy rb := by
  simp [ringbuffer_contents]

/-- `ringbuffer_write` appends the stored prefix to the logical content
and preserves the cursor invariant. -/
theorem ringbuffer_write_contents (rb : pcm_ringbuffer_t) (data : List Int)
    (h : ringbuffer_valid rb) :
    ringbuffer_contents (ringbuffer_write rb data).1
      = ringbuffer_contents rb ++ data.take (min data.length (ringbuffer_free_space rb))
  ∧ ringbuffer_valid (ringbuffer_write rb data).1 := by
  obtain ⟨hcnt, hcap, hread, hwp, hstore, hkeep⟩ := ringbuffer_write_spec rb data h
  obtain ⟨hC, hw, hr⟩ := h
  set t := min data.length (ringbuffer_free_space rb) with ht
  have htfree : t ≤ ringbuffer_free_space rb := Nat.min_le_right _ _
  have htlen : t ≤ data.length := Nat.min_le_left _ _
  have hofr := ringbuffer_occ_add_free rb ⟨hC, hw, hr⟩
  have hkey : ringbuffer_occupancy rb + t ≤ rb.capacity - 1 := by omega
  have hwposeq := ringbuffer_write_pos_eq rb ⟨hC, hw, hr⟩
  have hval : ringbuffer_valid (ringbuffer_write rb data).1 := by
    refine ⟨?_, ?_, ?_⟩
    · rw [hcap]
      exact hC
    · rw [hcap, hwp]
      exact Nat.mod_lt _ hC
    · rw [hcap, hread]
      exact hr
  have hocc2 : ringbuffer_occupancy (ringbuffer_write rb data).1
      = ringbuffer_occupancy rb + t := by
    unfold ringbuffer_occupancy
    rw [hcap, hread, hwp]
    exact occ_shift rb.capacity rb.write_pos rb.read_pos t hC hw hr hkey
  have hoccC : ringbuffer_occupancy rb < rb.capacity :=
    ringbuffer_occupancy_lt rb ⟨hC, hw, hr⟩
  refine ⟨?_, hval⟩
  apply List.ext_getElem
  · rw [ringbuffer_contents_length, hocc2, List.length_append,
      ringbuffer_contents_length, List.length_take]
    omega
  · intro j h1 h2
    rw [ringbuffer_contents_getElem _ _ h1, hcap, hread]
    by_cases hj : j < ringbuffer_occupancy rb
    · rw [List.getElem_append_left (by rw [ringbuffer_contents_length]; omega)]
      rw [ringbuffer_contents_getElem _ _ (by rw [ringbuffer_contents_length]; omega)]
      apply hkeep
      intro m hm heq
      have h3 : (rb.write_pos + m) % rb.capacity
          = (rb.read_pos + (ringbuffer_occupancy rb + m)) % rb.capacity := by
        conv_lhs => rw [← hwposeq]
        rw [Nat.mod_add_mod, Nat.add_assoc]
      have h4 := add_mod_inj rb.capacity rb.read_pos j (ringbuffer_occupancy rb + m)
        (by omega) (by omega) (heq.trans h3)
      omega
    · have hjlen : (ringbuffer_contents rb).length ≤ j := by
        rw [ringbuffer_contents_length]
        omega
      rw [List.getElem_append_right hjlen]
      have hm : j - (ringbuffer_contents rb).length = j - ringbuffer_occupancy rb := by
        rw [ringbuffer_contents_length]
      have hjt : j - ringbuffer_occupancy rb < t := by
        rw [ringbuffer_contents_length, hocc2] at h1
        omega
      have hidx : (rb.read_pos + j) % rb.capacity
          = (rb.write_pos + (j - ringbuffer_occupancy rb)) % rb.capacity := by
        conv_rhs => rw [← hwposeq]
        rw [Nat.mod_add_mod, Nat.add_assoc]
        congr 1
        omega
      rw [hidx, hstore _ hjt]
      have hjd : j - (ringbuffer_contents rb).length < (data.take t).length := by
        rw [List.length_take]
        omega
      rw [List.getElem_take]
      rw [List.getD_eq_getElem?_getD, List.getElem?_eq_getElem (by omega), Option.getD_some]
      congr 1
      rw [ringbuffer_contents_length]

/-- Characterisation of `ringbuffer_read`: the returned list is the prefix
of the logical content bounded by the request, the remaining content is
the corresponding suffix, and the cursor invariant is preserved. -/
theorem ringbuffer_read_spec (rb : pcm_ringbuffer_t) (n : Nat)
    (h : ringbuffer_valid rb) :
    (ringbuffer_read rb n).2 = (ringbuffer_contents rb).take (min n (ringbuffer_occupancy rb))
  ∧ (ringbuffer_read rb n).2.length = min n (ringbuffer_occupancy rb)
  ∧ ringbuffer_contents (ringbuffer_read rb n).1
      = (ringbuffer_contents rb).drop (min n (ringbuffer_occupancy rb))
  ∧ ringbuffer_valid (ringbuffer_read rb n).1 := by
  obtain ⟨hC, hw, hr⟩ := h
  have hoccC : ringbuffer_occupancy rb < rb.capacity :=
    ringbuffer_occupancy_lt rb ⟨hC, hw, hr⟩
  by_cases hn0 : n = 0
  · rw [ringbuffer_read, if_pos hn0, hn0]
    refine ⟨by simp, by simp, ?_, ⟨hC, hw, hr⟩⟩
    simp
  · have hoccdef : (rb.write_pos + rb.capacity - rb.read_pos) % rb.capacity
        = ringbuffer_occupancy rb := rfl
    have hminraw : (if n < (rb.write_pos + rb.capacity - rb.read_pos) % rb.capacity
          then n else (rb.write_pos + rb.capacity - rb.read_pos) % rb.capacity)
        = min n (ringbuffer_occupancy rb) := by
      rw [hoccdef, Nat.min_def]
      split_ifs <;> omega
    set k := min n (ringbuffer_occupancy rb) with hkdef
    have hkocc : k ≤ ringbuffer_occupancy rb := Nat.min_le_right _ _
    by_cases hk0 : k = 0
    · simp only [ringbuffer_read, if_neg hn0, hminraw]
      rw [if_pos hk0, hk0]
      refine ⟨by simp, by simp, ?_, ⟨hC, hw, hr⟩⟩
      simp
    · simp only [ringbuffer_read, if_neg hn0, hminraw]
      rw [if_neg hk0]
      have hout : ((if k ≤ rb.capacity - rb.read_pos then
            (List.range k).map (fun j => rb.buffer (rb.read_pos + j))
          else
            (List.range (rb.capacity - rb.read_pos)).map
              (fun j => rb.buffer (rb.read_pos + j)) ++
            (List.range (k - (rb.capacity - rb.read_pos))).map (fun j => rb.buffer j)) :
            List Int)
          = (ringbuffer_contents rb).take k := by
        by_cases hb1 : k ≤ rb.capacity - rb.read_pos
        · rw [if_pos hb1]
          apply List.ext_getElem
          · rw [List.length_map, List.length_range, List.length_take,
              ringbuffer_contents_length]
            omega
          · intro j h1 h2
            rw [List.getElem_take]
            rw [ringbuffer_contents_getElem _ _ (by
              rw [ringbuffer_contents_length]
              rw [List.length_map, List.length_range] at h1
              omega)]
            simp only [List.getElem_map, List.getElem_range]
            rw [List.length_map, List.length_range] at h1
            rw [Nat.mod_eq_of_lt (show rb.read_pos + j < rb.capacity by omega)]
        · rw [if_neg hb1]
          have hp1 : rb.capacity - rb.read_pos < k := by omega
          apply List.ext_getElem
          · rw [List.length_append, List.length_map, List.length_range, List.length_map,
              List.length_range, List.length_take, ringbuffer_contents_length]
            omega
          · intro j h1 h2
            have h1' : j < k := by
              rw [List.length_append, List.length_map, List.length_range, List.length_map,
                List.length_range] at h1
              omega
            rw [List.getElem_take]
            rw [ringbuffer_contents_getElem _ _ (by
              rw [ringbuffer_contents_length]
              omega)]
            by_cases hj1 : j < rb.capacity - rb.read_pos
            · rw [List.getElem_append_left (by
                rw [List.length_map, List.length_range]
                omega)]
              simp only [List.getElem_map, List.getElem_range]
              rw [Nat.mod_eq_of_lt (show rb.read_pos + j < rb.capacity by omega)]
            · rw [List.getElem_append_right (by
                rw [List.length_map, List.length_range]
                omega)]
              simp only [List.getElem_map, List.getElem_range, List.length_map,
                List.length_range]
              have he : rb.read_pos + j = (j - (rb.capacity - rb.read_pos)) + rb.capacity := by
                omega
              rw [he, Nat.add_mod_right,
                Nat.mod_eq_of_lt (show j - (rb.capacity - rb.read_pos) < rb.capacity by omega)]
      refine ⟨hout, ?_, ?_, ?_⟩
      · rw [hout, List.length_take, ringbuffer_contents_length]
        omega
      · -- remaining contents
        have hocc2 : ringbuffer_occupancy
            ({ rb with read_pos := (rb.read_pos + k) % rb.capacity }) 
            = ringbuffer_occupancy rb - k := by
          unfold ringbuffer_occupancy
          exact occ_shift_read rb.capacity rb.write_pos rb.read_pos k hC hw hr hkocc
        apply List.ext_getElem
        · rw [ringbuffer_contents_length, hocc2, List.length_drop,
            ringbuffer_contents_length]
        · intro j h1 h2
          rw [ringbuffer_contents_getElem _ _ h1]
          rw [ringbuffer_contents_length, hocc2] at h1
          rw [List.getElem_drop]
          rw [ringbuffer_contents_getElem _ _ (by
            rw [ringbuffer_contents_length]
            omega)]
          have hcong : ((rb.read_pos + k) % rb.capacity + j) % rb.capacity
              = (rb.read_pos + (k + j)) % rb.capacity := by
            rw [Nat.mod_add_mod, Nat.add_assoc]
          rw [hcong]
      · exact ⟨hC, hw, Nat.mod_lt _ hC⟩

-- ===========================================================================
-- C6: the PCM ring buffer's write/read/FIFO contract
-- ===========================================================================

/-- C6.  For a valid PCM ring of capacity C: `ringbuffer_write` stores and
returns exactly `min n free` samples where `free = (read_pos - write_pos -
1 + C) % C` (one slot reserved), appending them to the logical FIFO
content — and it is a total function, so it never blocks; the occupancy
after a write never exceeds `C - 1`; `ringbuffer_read` returns exactly
`min n occupancy` samples, and they are the oldest part of the content in
write order (the read prefix of the content, with the remainder left
behind), so samples are read back in the order they were written. -/
theorem c6_ringbuffer_fifo (rb : pcm_ringbuffer_t) (data : List Int) (n : Nat)
    (h : ringbuffer_valid rb) :
    (ringbuffer_write rb data).2 = min data.length (ringbuffer_free_space rb)
  ∧ ringbuffer_free_space rb
      = (rb.read_pos + rb.capacity - (rb.write_pos + 1)) % rb.capacity
  ∧ ringbuffer_valid (ringbuffer_write rb data).1
  ∧ ringbuffer_contents (ringbuffer_write rb data).1
      = ringbuffer_contents rb ++ data.take (min data.length (ringbuffer_free_space rb))
  ∧ ringbuffer_occupancy (ringbuffer_write rb data).1 ≤ rb.capacity - 1
  ∧ (ringbuffer_read rb n).2
      = (ringbuffer_contents rb).take (min n (ringbuffer_occupancy rb))
  ∧ (ringbuffer_read rb n).2.length = min n (ringbuffer_occupancy rb)
  ∧ ringbuffer_contents (ringbuffer_read rb n).1
      = (ringbuffer_contents rb).drop (min n (ringbuffer_occupancy rb))
  ∧ ringbuffer_valid (ringbuffer_read rb n).1 := by
  obtain ⟨hwcontents, hwvalid⟩ := ringbuffer_write_contents rb data h
  obtain ⟨hrout, hrlen, hrcontents, hrvalid⟩ := ringbuffer_read_spec rb n h
  obtain ⟨hcnt, hcap, _, _, _, _⟩ := ringbuffer_write_spec rb data h
  refine ⟨hcnt, rfl, hwvalid, hwcontents, ?_, hrout, hrlen, hrcontents, hrvalid⟩
  have hlt := ringbuffer_occupancy_lt _ hwvalid
  rw [hcap] at hlt
  omega

/-- C6, witness: a capacity-4 ring, a 4-sample write (one sample beyond
the free space) and a 2-sample read. -/
theorem c6_ringbuffer_fifo_witness :
    ringbuffer_valid ring_fixture
  ∧ ((ringbuffer_write ring_fixture [7, 8, 9, 5]).2
       = min ([7, 8, 9, 5] : List Int).length (ringbuffer_free_space ring_fixture)
     ∧ ringbuffer_free_space ring_fixture
         = (ring_fixture.read_pos + ring_fixture.capacity - (ring_fixture.write_pos + 1))
             % ring_fixture.capacity
     ∧ ringbuffer_valid (ringbuffer_write ring_fixture [7, 8, 9, 5]).1
     ∧ ringbuffer_contents (ringbuffer_write ring_fixture [7, 8, 9, 5]).1
         = ringbuffer_contents ring_fixture
           ++ ([7, 8, 9, 5] : List Int).take
                (min ([7, 8, 9, 5] : List Int).length (ringbuffer_free_space ring_fixture))
     ∧ ringbuffer_occupancy (ringbuffer_write ring_fixture [7, 8, 9, 5]).1
         ≤ ring_fixture.capacity - 1
     ∧ (ringbuffer_read ring_fixture 2).2
         = (ringbuffer_contents ring_fixture).take
             (min 2 (ringbuffer_occupancy ring_fixture))
     ∧ (ringbuffer_read ring_fixture 2).2.length
         = min 2 (ringbuffer_occupancy ring_fixture)
     ∧ ringbuffer_contents (ringbuffer_read ring_fixture 2).1
         = (ringbuffer_contents ring_fixture).drop
             (min 2 (ringbuffer_occupancy ring_fixture))
     ∧ ringbuffer_valid (ringbuffer_read ring_fixture 2).1) :=
  ⟨⟨by decide, by decide, by decide⟩,
   c6_ringbuffer_fifo ring_fixture [7, 8, 9, 5] 2 ⟨by decide, by decide, by decide⟩⟩
